import Mathlib

/-!
# LossPRO `WiFiManager`: network store, connection state machine and scans

A shallow embedding of `src/WiFiManager.cpp` (class declared in
`src/backup/WiFiManager.h`).  The manager object, the persistence service
(`Preferences`) and the effects it has on its collaborators (radio requests,
status notifications, scan-result events) are one explicit state record; every member function is a
pure function from state to state, returning the C++ return value next to the
new state.

Conventions
* `std::vector<NetworkInfo>` is `List NetworkInfo`; `push_back` appends at the
  end, `pop_back` is `List.dropLast`, `erase(begin() + idx)` is `List.eraseIdx`.
* `int` values (priorities, counters) are `Int`: the code only stores and
  compares them, there is no arithmetic that could overflow on them here.
* `findNetwork` returns `Option Nat`: `none` stands for the C++ result `-1`.
* `std::sort` is not stable, so the order it gives to records of equal rank is
  not fixed by the language.  All functions that sort take a `Sorter`: any
  function that returns a permutation of its input ordered by the comparator
  of `sortNetworksByPriority`.  `insertionSorter` is one such function.
* `millis()` is an input: functions that read the clock take the value read.
  `unsigned long` is 32 bits wide on the target; differences of clock values
  wrap around (`elapsed`).
* What one call reads from the radio driver (association status, current
  ssid, scan status and scan entries) and from the clock is an `Env`; the
  readings of one call are taken at one instant.
-/

namespace WiFiManager

/-! ## Data model (`WiFiManager.h`) -/

/-- Connection states, `enum class WiFiState`. -/
inductive WiFiState where
  | WIFI_DISABLED
  | WIFI_DISCONNECTED
  | WIFI_CONNECTING
  | WIFI_CONNECTED
  | WIFI_SCANNING
  deriving DecidableEq, Repr

/-- One remembered or observed network, `struct NetworkInfo`. -/
structure NetworkInfo where
  ssid : String
  password : String
  rssi : Int
  encryptionType : Nat
  saved : Bool
  connected : Bool
  priority : Int
  deriving DecidableEq, Repr

/-- The encryption kind `WIFI_AUTH_OPEN` of the radio driver (value 0). -/
def WIFI_AUTH_OPEN : Nat := 0

/-- Capacity of the saved list, `MAX_SAVED_NETWORKS = 5`. -/
def MAX_SAVED_NETWORKS : Nat := 5

/-- A value held by the persistence service under one key. -/
inductive PrefValue where
  | int (v : Int)
  | str (s : String)
  deriving DecidableEq, Repr

/-- The persistence service (`Preferences`, namespace `wifi_config`): a
key-value store under string keys. -/
structure Preferences where
  entries : String → Option PrefValue

/-- `Preferences::putInt(key, value)`. -/
def Preferences.putInt (p : Preferences) (key : String) (value : Int) : Preferences :=
  ⟨fun k => if k = key then some (PrefValue.int value) else p.entries k⟩

/-- `Preferences::putString(key, value)`. -/
def Preferences.putString (p : Preferences) (key : String) (value : String) : Preferences :=
  ⟨fun k => if k = key then some (PrefValue.str value) else p.entries k⟩

/-- `Preferences::getInt(key, defaultValue)`: the default is returned when the
key is absent or does not hold an integer. -/
def Preferences.getInt (p : Preferences) (key : String) (defaultValue : Int) : Int :=
  match p.entries key with
  | some (PrefValue.int v) => v
  | _ => defaultValue

/-- `Preferences::getString(key, defaultValue)`. -/
def Preferences.getString (p : Preferences) (key : String) (defaultValue : String) : String :=
  match p.entries key with
  | some (PrefValue.str s) => s
  | _ => defaultValue

/-- A request sent to the radio driver (the global `WiFi` object). -/
inductive RadioCmd where
  | modeSTA
  | modeOFF
  | setSleep (enable : Bool)
  | disconnect
  | begin (ssid password : String)
  | scanDelete
  | scanNetworks (async : Bool)
  deriving DecidableEq, Repr

/-- The manager object together with what it owns and what it emits: the
private members of `class WiFiManager`, whether each callback is set, and the
logs of radio requests, status notifications and scan-result events. -/
structure Manager where
  _state : WiFiState
  _enabled : Bool
  _manualDisconnect : Bool
  _initialized : Bool
  _scanInProgress : Bool
  _lastConnectionAttempt : Nat
  _scanStartTime : Nat
  _connectionAttempts : Int
  _connectingSSID : String
  _connectingPassword : String
  _savedNetworks : List NetworkInfo
  _scanResults : List NetworkInfo
  _preferences : Preferences
  _statusCallback : Bool
  _scanCallback : Bool
  radioLog : List RadioCmd
  statusLog : List (WiFiState × String)
  scanLog : List (List NetworkInfo)

/-- The constructor `WiFiManager::WiFiManager()`, over given persisted data. -/
def new (prefs : Preferences) : Manager where
  _state := WiFiState.WIFI_DISABLED
  _enabled := false
  _manualDisconnect := false
  _initialized := false
  _scanInProgress := false
  _lastConnectionAttempt := 0
  _scanStartTime := 0
  _connectionAttempts := 0
  _connectingSSID := ""
  _connectingPassword := ""
  _savedNetworks := []
  _scanResults := []
  _preferences := prefs
  _statusCallback := false
  _scanCallback := false
  radioLog := []
  statusLog := []
  scanLog := []

/-- A persistence service holding nothing. -/
def Preferences.empty : Preferences := ⟨fun _ => none⟩

/-! ## Ranking and sorting (`sortNetworksByPriority`) -/

/-- The comparator of `sortNetworksByPriority`:
`a.priority > b.priority || (a.priority == b.priority && a.rssi > b.rssi)`. -/
def rankBefore (a b : NetworkInfo) : Bool :=
  decide (a.priority > b.priority) || (decide (a.priority = b.priority) && decide (a.rssi > b.rssi))

/-- What `std::sort` with the comparator `rankBefore` guarantees of its result:
no record stands before one that the comparator puts strictly before it. -/
def RankSorted (l : List NetworkInfo) : Prop :=
  l.Pairwise (fun a b => rankBefore b a = false)

instance (l : List NetworkInfo) : Decidable (RankSorted l) :=
  inferInstanceAs (Decidable (l.Pairwise (fun a b => rankBefore b a = false)))

/-- Any implementation of `std::sort(begin, end, rankBefore)`: the result is a
permutation of the input and is ordered by the comparator. -/
structure Sorter where
  sort : List NetworkInfo → List NetworkInfo
  perm : ∀ l, (sort l).Perm l
  sorted : ∀ l, RankSorted (sort l)

/-- `WiFiManager::sortNetworksByPriority`: `std::sort` with the comparator
`rankBefore`. -/
def sortNetworksByPriority (S : Sorter) (networks : List NetworkInfo) : List NetworkInfo :=
  S.sort networks

/-- Insert a record into a ranked list, before the first record it outranks. -/
def rankInsert (a : NetworkInfo) : List NetworkInfo → List NetworkInfo
  | [] => [a]
  | b :: l => if rankBefore a b then a :: b :: l else b :: rankInsert a l

/-- Insertion sort by `rankBefore`. -/
def rankSort : List NetworkInfo → List NetworkInfo
  | [] => []
  | a :: l => rankInsert a (rankSort l)

/-- `findNetwork(ssid, networks)`: index of the first record with this ssid,
`none` for `-1`. -/
def findNetworkFrom (ssid : String) : List NetworkInfo → Nat → Option Nat
  | [], _ => none
  | n :: rest, i => if n.ssid = ssid then some i else findNetworkFrom ssid rest (i + 1)

/-- `WiFiManager::findNetwork`. -/
def findNetwork (ssid : String) (networks : List NetworkInfo) : Option Nat :=
  findNetworkFrom ssid networks 0

/-! ## Persistence (`saveNetworks`, `loadSavedNetworks`) -/

/-- Key `sprintf(ssidKey, "ssid%d", i)`. -/
def ssidKey (i : Nat) : String := "ssid" ++ toString i

/-- Key `sprintf(passKey, "pass%d", i)`. -/
def passKey (i : Nat) : String := "pass" ++ toString i

/-- Key `sprintf(prioKey, "prio%d", i)`. -/
def prioKey (i : Nat) : String := "prio" ++ toString i

/-- The loop of `saveNetworks`: record `i` of the vector is written under the
keys `ssid<i>`, `pass<i>`, `prio<i>`. -/
def saveLoop : List NetworkInfo → Nat → Preferences → Preferences
  | [], _, p => p
  | n :: rest, i, p =>
    saveLoop rest (i + 1)
      (((p.putString (ssidKey i) n.ssid).putString (passKey i) n.password).putInt
        (prioKey i) n.priority)

/-- `WiFiManager::saveNetworks`. -/
def saveNetworks (m : Manager) : Manager :=
  { m with
    _preferences :=
      saveLoop m._savedNetworks 0
        (m._preferences.putInt "numNetworks" (m._savedNetworks.length : Int)) }

/-- One iteration of the loop of `loadSavedNetworks`: entry `i` is read and,
when its ssid is not empty, pushed to the back of the vector. -/
def loadEntry (p : Preferences) (networks : List NetworkInfo) (i : Nat) : List NetworkInfo :=
  let ssid := p.getString (ssidKey i) ""
  let pass := p.getString (passKey i) ""
  let prio := p.getInt (prioKey i) 0
  if ssid.length > 0 then
    networks ++ [{ ssid := ssid, password := pass, rssi := 0, encryptionType := WIFI_AUTH_OPEN,
                   saved := true, connected := false, priority := prio }]
  else networks

/-- `WiFiManager::loadSavedNetworks`: reads `min(num, MAX_SAVED_NETWORKS)`
entries (none when `num` is negative), then sorts the vector. -/
def loadSavedNetworks (S : Sorter) (m : Manager) : Manager :=
  let num := m._preferences.getInt "numNetworks" 0
  let bound := (min num (MAX_SAVED_NETWORKS : Int)).toNat
  { m with
    _savedNetworks :=
      S.sort ((List.range bound).foldl (loadEntry m._preferences) m._savedNetworks) }

/-! ## Network store (`addNetwork`, `removeNetwork`, `setNetworkPriority`) -/

/-- The record `NetworkInfo{ssid, password, 0, WIFI_AUTH_OPEN, true, false, priority}`. -/
def newRecord (ssid password : String) (priority : Int) : NetworkInfo :=
  { ssid := ssid, password := password, rssi := 0, encryptionType := WIFI_AUTH_OPEN,
    saved := true, connected := false, priority := priority }

/-- `WiFiManager::addNetwork`. -/
def addNetwork (S : Sorter) (m : Manager) (ssid password : String) (priority : Int) :
    Bool × Manager :=
  match findNetwork ssid m._savedNetworks with
  | some idx =>
    (true, saveNetworks
      { m with
        _savedNetworks :=
          m._savedNetworks.modify (fun n => { n with password := password, priority := priority })
            idx })
  | none =>
    let kept :=
      if m._savedNetworks.length ≥ MAX_SAVED_NETWORKS then (S.sort m._savedNetworks).dropLast
      else m._savedNetworks
    (true, saveNetworks { m with _savedNetworks := kept ++ [newRecord ssid password priority] })

/-- `WiFiManager::removeNetwork`. -/
def removeNetwork (m : Manager) (ssid : String) : Bool × Manager :=
  match findNetwork ssid m._savedNetworks with
  | none => (false, m)
  | some idx => (true, saveNetworks { m with _savedNetworks := m._savedNetworks.eraseIdx idx })

/-- `WiFiManager::setNetworkPriority`. -/
def setNetworkPriority (m : Manager) (ssid : String) (priority : Int) : Bool × Manager :=
  match findNetwork ssid m._savedNetworks with
  | none => (false, m)
  | some idx =>
    (true, saveNetworks
      { m with
        _savedNetworks := m._savedNetworks.modify (fun n => { n with priority := priority }) idx })

/-- A sequence of `addNetwork(ssid, password, priority)` calls, in order. -/
def addNetworks (S : Sorter) (m : Manager) : List (String × String × Int) → Manager
  | [] => m
  | c :: rest => addNetworks S (addNetwork S m c.1 c.2.1 c.2.2).2 rest

/-! ## Connection requests (`connect`, `connectToBestNetwork`) -/

/-- `WiFiManager::notifyStatus`: the status callback, when set, receives the
current state and the message. -/
def notifyStatus (m : Manager) (message : String) : Manager :=
  if m._statusCallback then { m with statusLog := m.statusLog ++ [(m._state, message)] } else m

/-- A request issued to the radio driver. -/
def radio (m : Manager) (c : RadioCmd) : Manager :=
  { m with radioLog := m.radioLog ++ [c] }

/-- `WiFiManager::connect`; `now` is the value `millis()` returns. -/
def connect (S : Sorter) (m : Manager) (now : Nat) (ssid password : String) (save : Bool)
    (priority : Int) : Bool × Manager :=
  if !m._enabled then (false, m)
  else
    let m1 : Manager :=
      { m with
        _state := WiFiState.WIFI_CONNECTING
        _connectingSSID := ssid
        _connectingPassword := password
        _lastConnectionAttempt := now
        _connectionAttempts := 1
        _manualDisconnect := false }
    let m2 := radio m1 RadioCmd.disconnect
    let m3 := radio m2 (RadioCmd.begin ssid password)
    let m4 := notifyStatus m3 ("Connecting to " ++ ssid)
    let m5 := if save then (addNetwork S m4 ssid password priority).2 else m4
    (true, m5)

/-- The `for` loop of `connectToBestNetwork` over the (sorted) saved list: the
first `connect` that succeeds ends it. -/
def connectLoop (S : Sorter) (now : Nat) : List NetworkInfo → Manager → Bool × Manager
  | [], m => (false, m)
  | n :: rest, m =>
    let r := connect S m now n.ssid n.password false n.priority
    if r.1 then (true, r.2) else connectLoop S now rest r.2

/-- `WiFiManager::connectToBestNetwork`. -/
def connectToBestNetwork (S : Sorter) (m : Manager) (now : Nat) : Bool × Manager :=
  if !m._enabled || m._savedNetworks.isEmpty then (false, m)
  else
    let m1 : Manager := { m with _savedNetworks := S.sort m._savedNetworks }
    connectLoop S now m1._savedNetworks m1

/-- `WiFiManager::getSavedNetworks`. -/
def getSavedNetworks (m : Manager) : List NetworkInfo := m._savedNetworks

/-- `WiFiManager::getState`. -/
def getState (m : Manager) : WiFiState := m._state

/-! ## State machine (`begin`, `setEnabled`, `disconnect`, `startScan`, `update`) -/

/-- `CONNECTION_TIMEOUT = 10000` (ms). -/
def CONNECTION_TIMEOUT : Nat := 10000

/-- `SCAN_TIMEOUT = 8000` (ms). -/
def SCAN_TIMEOUT : Nat := 8000

/-- `RECONNECT_INTERVAL = 30000` (ms). -/
def RECONNECT_INTERVAL : Nat := 30000

/-- `MAX_CONNECTION_ATTEMPTS = 3`. -/
def MAX_CONNECTION_ATTEMPTS : Int := 3

/-- Number of values of `unsigned long` on the target (32 bits). -/
def ULONG_RANGE : Nat := 2 ^ 32

/-- The `unsigned long` subtraction `millis() - since`, which wraps around. -/
def elapsed (now since : Nat) : Nat := (now + ULONG_RANGE - since % ULONG_RANGE) % ULONG_RANGE

/-- The conversion of the driver's `int32_t` signal to the `int8_t` field `rssi`. -/
def toInt8 (x : Int) : Int := (x + 128) % 256 - 128

/-- The conversion of the driver's encryption kind to the `uint8_t` field. -/
def toUInt8 (x : Nat) : Nat := x % 256

/-- What the manager reads from its surroundings during one call: the clock
`millis()`, whether `WiFi.status() == WL_CONNECTED`, the current `WiFi.SSID()`,
the result of `WiFi.scanComplete()` and the scan entries `WiFi.SSID(i)`,
`WiFi.RSSI(i)`, `WiFi.encryptionType(i)`. -/
structure Env where
  millis : Nat
  connected : Bool
  currentSSID : String
  scanComplete : Int
  scanSSID : Nat → String
  scanRSSI : Nat → Int
  scanEncryptionType : Nat → Nat

/-- `WiFiManager::isConnected`. -/
def isConnected (env : Env) : Bool := env.connected

/-- `WiFiManager::isScanning`. -/
def isScanning (m : Manager) : Bool := m._scanInProgress

/-- `WiFiManager::getScanResults`. -/
def getScanResults (m : Manager) : List NetworkInfo := m._scanResults

/-- `WiFiManager::isEnabled`. -/
def isEnabled (m : Manager) : Bool := m._enabled

/-- `WiFiManager::begin`. -/
def begin (S : Sorter) (m : Manager) : Manager :=
  let m1 := radio m RadioCmd.modeSTA
  let m2 := radio m1 (RadioCmd.setSleep true)
  let m3 := loadSavedNetworks S m2
  let m4 : Manager :=
    { m3 with _state := WiFiState.WIFI_DISCONNECTED, _enabled := true, _initialized := true }
  notifyStatus m4 "WiFi initialized"

/-- `WiFiManager::disconnect`. -/
def disconnect (m : Manager) (manual : Bool) : Manager :=
  let m1 := radio m RadioCmd.disconnect
  let m2 : Manager := { m1 with _state := WiFiState.WIFI_DISCONNECTED, _manualDisconnect := manual }
  notifyStatus m2 "Disconnected"

/-- `WiFiManager::setEnabled`; `now` is the value `millis()` returns. -/
def setEnabled (S : Sorter) (m : Manager) (now : Nat) (enabled : Bool) : Manager :=
  if m._enabled = enabled then m
  else
    let m1 : Manager := { m with _enabled := enabled }
    if enabled then
      let m2 := radio m1 RadioCmd.modeSTA
      let m3 : Manager := { m2 with _state := WiFiState.WIFI_DISCONNECTED }
      (connectToBestNetwork S m3 now).2
    else
      let m2 := disconnect m1 true
      let m3 := radio m2 RadioCmd.modeOFF
      let m4 : Manager := { m3 with _state := WiFiState.WIFI_DISABLED }
      notifyStatus m4 "WiFi disabled"

/-- `WiFiManager::startScan`; `now` is the value `millis()` returns. -/
def startScan (m : Manager) (now : Nat) : Bool × Manager :=
  if !m._enabled || m._scanInProgress then (false, m)
  else
    let m1 : Manager :=
      { m with
        _state := WiFiState.WIFI_SCANNING
        _scanInProgress := true
        _scanStartTime := now
        _scanResults := [] }
    let m2 := radio m1 RadioCmd.scanDelete
    let m3 := radio m2 (RadioCmd.scanNetworks true)
    (true, notifyStatus m3 "Scanning networks...")

/-- The record built for scan entry `i` in the loop of the scanning case. -/
def scanRecord (saved : List NetworkInfo) (env : Env) (i : Nat) : NetworkInfo :=
  let ssid := env.scanSSID i
  let isSaved := (findNetwork ssid saved).isSome
  { ssid := ssid
    password := ""
    rssi := toInt8 (env.scanRSSI i)
    encryptionType := toUInt8 (env.scanEncryptionType i)
    saved := isSaved
    connected := env.connected && decide (env.currentSSID = ssid)
    priority :=
      match findNetwork ssid saved with
      | some idx =>
        match saved[idx]? with
        | some r => r.priority
        | none => 0
      | none => 0 }

/-- The state after a scan has ended: Connected if the radio is associated,
Disconnected otherwise. -/
def stateAfterScan (env : Env) : WiFiState :=
  if isConnected env then WiFiState.WIFI_CONNECTED else WiFiState.WIFI_DISCONNECTED

/-- `WiFiManager::updateState`, case `WIFI_SCANNING`. -/
def updateScanning (S : Sorter) (m : Manager) (env : Env) : Manager :=
  let scanStatus := env.scanComplete
  if scanStatus ≥ 0 then
    let results :=
      (List.range scanStatus.toNat).foldl (fun acc i => acc ++ [scanRecord m._savedNetworks env i])
        []
    let m1 : Manager :=
      { m with
        _scanResults := S.sort results
        _scanInProgress := false
        _state := stateAfterScan env }
    let m2 :=
      notifyStatus m1 ("Scan complete: " ++ toString m1._scanResults.length ++ " networks found")
    if m2._scanCallback then { m2 with scanLog := m2.scanLog ++ [m2._scanResults] } else m2
  else if elapsed env.millis m._scanStartTime > SCAN_TIMEOUT then
    let m1 := radio m RadioCmd.scanDelete
    let m2 : Manager := { m1 with _scanInProgress := false, _state := stateAfterScan env }
    notifyStatus m2 "Scan timed out"
  else m

/-- `WiFiManager::updateState`, case `WIFI_CONNECTING`. -/
def updateConnecting (m : Manager) (env : Env) : Manager :=
  if env.connected then
    let m1 : Manager := { m with _state := WiFiState.WIFI_CONNECTED, _connectionAttempts := 0 }
    notifyStatus m1 ("Connected to " ++ m._connectingSSID)
  else if elapsed env.millis m._lastConnectionAttempt > CONNECTION_TIMEOUT then
    if m._connectionAttempts < MAX_CONNECTION_ATTEMPTS then
      let m1 : Manager :=
        { m with
          _lastConnectionAttempt := env.millis
          _connectionAttempts := m._connectionAttempts + 1 }
      let m2 := radio m1 (RadioCmd.begin m._connectingSSID m._connectingPassword)
      notifyStatus m2
        ("Retrying connection (" ++ toString m2._connectionAttempts ++ "/" ++
          toString MAX_CONNECTION_ATTEMPTS ++ ")")
    else
      let m1 : Manager := { m with _state := WiFiState.WIFI_DISCONNECTED }
      notifyStatus m1 ("Connection failed to " ++ m._connectingSSID)
  else m

/-- `WiFiManager::updateState`, case `WIFI_CONNECTED`. -/
def updateConnected (S : Sorter) (m : Manager) (env : Env) : Manager :=
  if !env.connected then
    let m1 : Manager := { m with _state := WiFiState.WIFI_DISCONNECTED }
    if !m1._manualDisconnect then (connectToBestNetwork S m1 env.millis).2 else m1
  else m

/-- `WiFiManager::updateState`, case `WIFI_DISCONNECTED`. -/
def updateDisconnected (S : Sorter) (m : Manager) (env : Env) : Manager :=
  if !m._manualDisconnect && decide (elapsed env.millis m._lastConnectionAttempt > RECONNECT_INTERVAL)
  then (connectToBestNetwork S m env.millis).2
  else m

/-- `WiFiManager::updateState`. -/
def updateState (S : Sorter) (m : Manager) (env : Env) : Manager :=
  match m._state with
  | WiFiState.WIFI_SCANNING => updateScanning S m env
  | WiFiState.WIFI_CONNECTING => updateConnecting m env
  | WiFiState.WIFI_CONNECTED => updateConnected S m env
  | WiFiState.WIFI_DISCONNECTED => updateDisconnected S m env
  | WiFiState.WIFI_DISABLED => m

/-- `WiFiManager::update`. -/
def update (S : Sorter) (m : Manager) (env : Env) : Manager :=
  if !m._enabled then m else updateState S m env

/-- A sequence of `update()` calls, each with what it reads from its
surroundings. -/
def updates (S : Sorter) (m : Manager) : List Env → Manager
  | [] => m
  | env :: rest => updates S (update S m env) rest

/-! ## Notions used in the statements and proofs -/

/-- The record `addNetwork` creates for a call `(ssid, password, priority)`. -/
def callRecord (c : String × String × Int) : NetworkInfo := newRecord c.1 c.2.1 c.2.2

/-- The saved list after a sequence of `addNetwork` calls on an empty store. -/
def savedAfterAdds (S : Sorter) (m0 : Manager) (calls : List (String × String × Int)) :
    List NetworkInfo :=
  getSavedNetworks (addNetworks S { m0 with _savedNetworks := [] } calls)

/-- Invariant of a full store while further distinct ssids are added: the store
is four kept records followed by the record of the last call, and no kept
record has a lower priority than a call that is no longer stored. -/
def FullStoreInv (done : List (String × String × Int)) (st : List NetworkInfo) : Prop :=
  ∃ kept l, st = kept ++ [callRecord l] ∧ done.getLast? = some l ∧ kept.length = 4 ∧
    (st.map NetworkInfo.ssid).Nodup ∧ (∀ r ∈ st, ∃ c ∈ done, r = callRecord c) ∧
    ∀ c ∈ done, c.1 ∉ st.map NetworkInfo.ssid → ∀ r ∈ kept, c.2.2 ≤ r.priority

/-- The calls of the C2 counterexample: five networks of priorities 10 to 6,
then a sixth one of priority 1. -/
def top5Calls : List (String × String × Int) :=
  [("a", "pa", 10), ("b", "pb", 9), ("c", "pc", 8), ("d", "pd", 7), ("e", "pe", 6),
    ("f", "pf", 1)]

/-- The number a string of decimal digits denotes (used to show that `%d`
renders distinct indices differently). -/
def digitsVal (cs : List Char) : Nat := cs.foldl (fun a c => 10 * a + (c.toNat - 48)) 0

/-- The records held by the persistence service, read back in index order:
`numNetworks` entries `(ssid<i>, pass<i>, prio<i>)`. -/
def persistedRecords (p : Preferences) : List (String × String × Int) :=
  (List.range (p.getInt "numNetworks" 0).toNat).map
    (fun i => (p.getString (ssidKey i) "", p.getString (passKey i) "", p.getInt (prioKey i) 0))

/-- The persisted fields of a record. -/
def NetworkInfo.triple (n : NetworkInfo) : String × String × Int := (n.ssid, n.password, n.priority)

/-- The order of the specification on adjacent records `a`, `b`:
`a.priority > b.priority`, or `a.priority = b.priority` and `a.rssi >= b.rssi`. -/
def rankGE (a b : NetworkInfo) : Prop :=
  a.priority > b.priority ∨ (a.priority = b.priority ∧ a.rssi ≥ b.rssi)

instance : DecidableRel rankGE := fun a b =>
  inferInstanceAs (Decidable (a.priority > b.priority ∨ (a.priority = b.priority ∧ a.rssi ≥ b.rssi)))

/-- A list is non-increasing by (priority, signal) lexicographically: every
adjacent pair is in the order `rankGE`. -/
def NonIncreasing : List NetworkInfo → Prop
  | [] => True
  | [_] => True
  | a :: b :: rest => rankGE a b ∧ NonIncreasing (b :: rest)

/-- Decision procedure for `NonIncreasing`. -/
def decNonIncreasing : (l : List NetworkInfo) → Decidable (NonIncreasing l)
  | [] => isTrue trivial
  | [_] => isTrue trivial
  | a :: b :: rest =>
    have : Decidable (NonIncreasing (b :: rest)) := decNonIncreasing (b :: rest)
    inferInstanceAs (Decidable (rankGE a b ∧ NonIncreasing (b :: rest)))

instance (l : List NetworkInfo) : Decidable (NonIncreasing l) := decNonIncreasing l

instance : IsTrans NetworkInfo rankGE where
  trans a b c h1 h2 := by
    unfold rankGE at *
    omega

/-- The manager after the assignments, radio requests and notification of an
accepted `connect`, before the optional `addNetwork`. -/
def connectRequested (m : Manager) (now : Nat) (ssid password : String) : Manager :=
  notifyStatus
    (radio
      (radio
        { m with
          _state := WiFiState.WIFI_CONNECTING
          _connectingSSID := ssid
          _connectingPassword := password
          _lastConnectionAttempt := now
          _connectionAttempts := 1
          _manualDisconnect := false }
        RadioCmd.disconnect)
      (RadioCmd.begin ssid password))
    ("Connecting to " ++ ssid)

/-- The manager after a retry of the pending connection at clock value `now`,
which makes it attempt number `k`: the timestamp is reset, the counter is `k`,
the same credentials are re-issued to the radio, and a retry message is
notified; the state stays Connecting. -/
def afterRetry (m : Manager) (now : Nat) (k : Int) : Manager :=
  { m with
    _lastConnectionAttempt := now
    _connectionAttempts := k
    radioLog := m.radioLog ++ [RadioCmd.begin m._connectingSSID m._connectingPassword]
    statusLog :=
      if m._statusCallback then
        m.statusLog ++
          [(m._state,
            "Retrying connection (" ++ toString k ++ "/" ++ toString MAX_CONNECTION_ATTEMPTS ++ ")")]
      else m.statusLog }

/-- The manager after the pending connection is given up: the state is
Disconnected and the failure message is notified. -/
def afterFailure (m : Manager) : Manager :=
  { m with
    _state := WiFiState.WIFI_DISCONNECTED
    statusLog :=
      if m._statusCallback then
        m.statusLog ++
          [(WiFiState.WIFI_DISCONNECTED, "Connection failed to " ++ m._connectingSSID)]
      else m.statusLog }

/-- Surroundings in which the radio is not associated and no scan has
completed, at clock value `now`. -/
def idleEnv (now : Nat) : Env where
  millis := now
  connected := false
  currentSSID := ""
  scanComplete := -1
  scanSSID := fun _ => ""
  scanRSSI := fun _ => 0
  scanEncryptionType := fun _ => 0

/-- Surroundings in which the radio is associated to `ssid` at clock value `now`. -/
def associatedEnv (now : Nat) (ssid : String) : Env where
  millis := now
  connected := true
  currentSSID := ssid
  scanComplete := -1
  scanSSID := fun _ => ""
  scanRSSI := fun _ => 0
  scanEncryptionType := fun _ => 0

/-- The record `loadSavedNetworks` builds from entry `i` of the persistence
service, if its ssid is not empty. -/
def persistedEntry (p : Preferences) (i : Nat) : Option NetworkInfo :=
  if (p.getString (ssidKey i) "").length > 0 then
    some (newRecord (p.getString (ssidKey i) "") (p.getString (passKey i) "")
      (p.getInt (prioKey i) 0))
  else none

/-- The records `loadSavedNetworks` reads: one for each index below
`min(numNetworks, MAX_SAVED_NETWORKS)` whose ssid is not empty, in index order. -/
def persistedEntries (p : Preferences) : List NetworkInfo :=
  (List.range (min (p.getInt "numNetworks" 0) (MAX_SAVED_NETWORKS : Int)).toNat).filterMap
    (persistedEntry p)

/-- Persisted data holding the three networks `home`, `office`, `cafe`. -/
def threeNetworksPrefs : Preferences :=
  (saveNetworks
    { new Preferences.empty with
      _savedNetworks :=
        [newRecord "home" "h" 3, newRecord "office" "o" 2, newRecord "cafe" "" 1] })._preferences

/-- Surroundings in which a scan has completed with the two entries `cafe`
(signal -70) and `home` (signal -50), the radio not being associated. -/
def twoResultsEnv (now : Nat) : Env where
  millis := now
  connected := false
  currentSSID := ""
  scanComplete := 2
  scanSSID := fun i => if i = 0 then "cafe" else "home"
  scanRSSI := fun i => if i = 0 then -70 else -50
  scanEncryptionType := fun _ => 3

/-- A call of a public operation of the manager, with its arguments and with
what the call reads from the clock and the radio. -/
inductive Op where
  | begin
  | setEnabled (now : Nat) (enabled : Bool)
  | connect (now : Nat) (ssid password : String) (save : Bool) (priority : Int)
  | connectToBestNetwork (now : Nat)
  | disconnect (manual : Bool)
  | startScan (now : Nat)
  | update (env : Env)
  | addNetwork (ssid password : String) (priority : Int)
  | removeNetwork (ssid : String)
  | setNetworkPriority (ssid : String) (priority : Int)

/-- The manager after one call of a public operation. -/
def Op.apply (S : Sorter) (m : Manager) : Op → Manager
  | Op.begin => WiFiManager.begin S m
  | Op.setEnabled now enabled => WiFiManager.setEnabled S m now enabled
  | Op.connect now ssid password save priority =>
    (WiFiManager.connect S m now ssid password save priority).2
  | Op.connectToBestNetwork now => (WiFiManager.connectToBestNetwork S m now).2
  | Op.disconnect manual => WiFiManager.disconnect m manual
  | Op.startScan now => (WiFiManager.startScan m now).2
  | Op.update env => WiFiManager.update S m env
  | Op.addNetwork ssid password priority => (WiFiManager.addNetwork S m ssid password priority).2
  | Op.removeNetwork ssid => (WiFiManager.removeNetwork m ssid).2
  | Op.setNetworkPriority ssid priority => (WiFiManager.setNetworkPriority m ssid priority).2

/-- The manager after a sequence of calls of public operations, in order. -/
def run (S : Sorter) (m : Manager) : List Op → Manager
  | [] => m
  | op :: rest => run S (op.apply S m) rest

/-- A call leaves the scan accounting alone: the in-progress flag is unchanged
and the state does not become Scanning. -/
def ScanQuiet (m m2 : Manager) : Prop :=
  m2._scanInProgress = m._scanInProgress ∧
    (m2._state = WiFiState.WIFI_SCANNING → m._state = WiFiState.WIFI_SCANNING)

/-- The in-progress flag is set although the state is not Scanning. -/
def ScanStuck (m : Manager) : Prop :=
  m._scanInProgress = true ∧ m._state ≠ WiFiState.WIFI_SCANNING

/-- The calls `begin()`, `startScan()`, `connect("home", "secret", false, 0)`. -/
def scanThenConnect : List Op :=
  [Op.begin, Op.startScan 100, Op.connect 200 "home" "secret" false 0]

/-- The calls `begin()`, `startScan()`, `disconnect(true)`. -/
def scanThenDisconnect : List Op := [Op.begin, Op.startScan 100, Op.disconnect true]

/-! ## The insertion sort is a `Sorter` -/

theorem rankInsert_perm (a : NetworkInfo) (l : List NetworkInfo) :
    (rankInsert a l).Perm (a :: l) := by
  induction l with
  | nil => exact List.Perm.refl _
  | cons b l ih =>
    unfold rankInsert
    split
    · exact List.Perm.refl _
    · exact (List.Perm.cons b ih).trans (List.Perm.swap a b l)

theorem rankSort_perm (l : List NetworkInfo) : (rankSort l).Perm l := by
  induction l with
  | nil => exact List.Perm.refl _
  | cons a l ih => exact (rankInsert_perm a _).trans (List.Perm.cons a ih)

theorem rankBefore_asymm {a b : NetworkInfo} (h : rankBefore a b = true) :
    rankBefore b a = false := by
  simp only [rankBefore, Bool.or_eq_true, Bool.and_eq_true, decide_eq_true_eq, Bool.or_eq_false_iff,
    Bool.and_eq_false_iff, decide_eq_false_iff_not] at h ⊢
  omega

theorem rankBefore_trans_false {a b c : NetworkInfo} (h1 : rankBefore b a = false)
    (h2 : rankBefore c b = false) : rankBefore c a = false := by
  simp only [rankBefore, Bool.or_eq_false_iff, Bool.and_eq_false_iff,
    decide_eq_false_iff_not] at h1 h2 ⊢
  omega

theorem rankInsert_sorted (a : NetworkInfo) (l : List NetworkInfo) (h : RankSorted l) :
    RankSorted (rankInsert a l) := by
  induction l with
  | nil => simp [rankInsert, RankSorted]
  | cons b l ih =>
    unfold RankSorted at h ih ⊢
    rw [List.pairwise_cons] at h
    unfold rankInsert
    split
    · rename_i hab
      refine List.pairwise_cons.2 ⟨?_, List.pairwise_cons.2 h⟩
      intro c hc
      rcases List.mem_cons.1 hc with rfl | hc
      · exact rankBefore_asymm hab
      · exact rankBefore_trans_false (rankBefore_asymm hab) (h.1 c hc)
    · rename_i hab
      refine List.pairwise_cons.2 ⟨?_, ih h.2⟩
      intro c hc
      rcases List.mem_cons.1 ((rankInsert_perm a l).subset hc) with rfl | hc
      · simpa using hab
      · exact h.1 c hc

theorem rankSort_sorted (l : List NetworkInfo) : RankSorted (rankSort l) := by
  induction l with
  | nil => simp [rankSort, RankSorted]
  | cons a l ih => exact rankInsert_sorted a _ ih

/-- The insertion sort as an implementation of `std::sort`. -/
def insertionSorter : Sorter where
  sort := rankSort
  perm := rankSort_perm
  sorted := rankSort_sorted

/-! ## Basic facts about the store operations -/

@[simp] theorem saveNetworks_savedNetworks (m : Manager) :
    (saveNetworks m)._savedNetworks = m._savedNetworks := rfl

theorem addNetwork_saved_found (S : Sorter) (m : Manager) (ssid password : String)
    (priority : Int) (idx : Nat) (h : findNetwork ssid m._savedNetworks = some idx) :
    (addNetwork S m ssid password priority).2._savedNetworks =
      m._savedNetworks.modify (fun n => { n with password := password, priority := priority })
        idx := by
  simp [addNetwork, h]

theorem addNetwork_saved_absent (S : Sorter) (m : Manager) (ssid password : String)
    (priority : Int) (h : findNetwork ssid m._savedNetworks = none) :
    (addNetwork S m ssid password priority).2._savedNetworks =
      (if m._savedNetworks.length ≥ MAX_SAVED_NETWORKS then (S.sort m._savedNetworks).dropLast
        else m._savedNetworks) ++ [newRecord ssid password priority] := by
  simp [addNetwork, h]

theorem addNetwork_length_le (S : Sorter) (m : Manager) (ssid password : String)
    (priority : Int) (h : m._savedNetworks.length ≤ MAX_SAVED_NETWORKS) :
    (addNetwork S m ssid password priority).2._savedNetworks.length ≤ MAX_SAVED_NETWORKS := by
  cases hf : findNetwork ssid m._savedNetworks with
  | some idx =>
    rw [addNetwork_saved_found S m ssid password priority idx hf, List.length_modify]
    exact h
  | none =>
    rw [addNetwork_saved_absent S m ssid password priority hf]
    have hp := (S.perm m._savedNetworks).length_eq
    unfold MAX_SAVED_NETWORKS at h ⊢
    split
    · simp only [List.length_append, List.length_dropLast, List.length_singleton]
      omega
    · simp only [List.length_append, List.length_singleton]
      omega

theorem addNetworks_length_le (S : Sorter) (calls : List (String × String × Int)) :
    ∀ m : Manager, m._savedNetworks.length ≤ MAX_SAVED_NETWORKS →
      (addNetworks S m calls)._savedNetworks.length ≤ MAX_SAVED_NETWORKS := by
  induction calls with
  | nil => intro m h; exact h
  | cons c rest ih =>
    intro m h
    exact ih _ (addNetwork_length_le S m c.1 c.2.1 c.2.2 h)

/-! ## Facts about `findNetwork` -/

theorem findNetworkFrom_none (ssid : String) (l : List NetworkInfo) :
    ∀ i, findNetworkFrom ssid l i = none ↔ ∀ n ∈ l, n.ssid ≠ ssid := by
  induction l with
  | nil => intro i; simp [findNetworkFrom]
  | cons a l ih =>
    intro i
    unfold findNetworkFrom
    by_cases h : a.ssid = ssid
    · simp [h]
    · simp [h, ih (i + 1)]

theorem findNetwork_none {ssid : String} {l : List NetworkInfo} :
    findNetwork ssid l = none ↔ ssid ∉ l.map NetworkInfo.ssid := by
  rw [findNetwork, findNetworkFrom_none]
  simp only [List.mem_map, not_exists, not_and]

/-- A successful search splits the vector at the first record with the ssid. -/
theorem findNetworkFrom_some (ssid : String) (l : List NetworkInfo) :
    ∀ i k, findNetworkFrom ssid l i = some k →
      ∃ pre n post, l = pre ++ n :: post ∧ k = i + pre.length ∧ n.ssid = ssid ∧
        ∀ x ∈ pre, x.ssid ≠ ssid := by
  induction l with
  | nil => intro i k h; simp [findNetworkFrom] at h
  | cons a l ih =>
    intro i k h
    unfold findNetworkFrom at h
    by_cases ha : a.ssid = ssid
    · simp only [ha, if_true, Option.some.injEq] at h
      exact ⟨[], a, l, rfl, by simp [h], ha, by simp⟩
    · simp only [ha, if_false] at h
      obtain ⟨pre, n, post, hl, hk, hn, hpre⟩ := ih (i + 1) k h
      refine ⟨a :: pre, n, post, by simp [hl], by simp [hk]; omega, hn, ?_⟩
      intro x hx
      rcases List.mem_cons.1 hx with rfl | hx
      · exact ha
      · exact hpre x hx

theorem findNetwork_some {ssid : String} {l : List NetworkInfo} {idx : Nat}
    (h : findNetwork ssid l = some idx) :
    ∃ pre n post, l = pre ++ n :: post ∧ idx = pre.length ∧ n.ssid = ssid ∧
      ∀ x ∈ pre, x.ssid ≠ ssid := by
  obtain ⟨pre, n, post, hl, hk, hn, hpre⟩ := findNetworkFrom_some ssid l 0 idx h
  exact ⟨pre, n, post, hl, by omega, hn, hpre⟩

theorem findNetwork_isSome_of_mem {ssid : String} {l : List NetworkInfo}
    (h : ssid ∈ l.map NetworkInfo.ssid) : ∃ idx, findNetwork ssid l = some idx := by
  cases hf : findNetwork ssid l with
  | none => exact absurd h (findNetwork_none.1 hf)
  | some idx => exact ⟨idx, rfl⟩

theorem modify_at_length {α : Type} (f : α → α) (pre : List α) (a : α) (post : List α) :
    (pre ++ a :: post).modify f pre.length = pre ++ f a :: post := by
  induction pre with
  | nil => simp
  | cons b pre ih => simp [ih]

theorem eraseIdx_at_length {α : Type} (pre : List α) (a : α) (post : List α) :
    (pre ++ a :: post).eraseIdx pre.length = pre ++ post := by
  induction pre with
  | nil => simp
  | cons b pre ih => simp [ih]

/-! ## C1: capacity -/

/-- C1. Capacity invariant of `addNetwork`: when the saved list holds at most
`MAX_SAVED_NETWORKS` (5) records, it still holds at most 5 after
`addNetwork(ssid, password, priority)`; and after any finite sequence of
`addNetwork` calls on a manager whose saved list is empty, `getSavedNetworks()`
has at most 5 records. -/
theorem addNetwork_capacity (S : Sorter) (m : Manager) (ssid password : String)
    (priority : Int) (h : (getSavedNetworks m).length ≤ MAX_SAVED_NETWORKS) :
    (getSavedNetworks (addNetwork S m ssid password priority).2).length ≤ MAX_SAVED_NETWORKS ∧
      ∀ (m0 : Manager) (calls : List (String × String × Int)),
        (getSavedNetworks (addNetworks S { m0 with _savedNetworks := [] } calls)).length
          ≤ MAX_SAVED_NETWORKS :=
  ⟨addNetwork_length_le S m ssid password priority h,
    fun _ calls => addNetworks_length_le S calls _ (Nat.zero_le _)⟩

/-- C1 at a concrete store: a full list of five records and a sixth ssid. -/
theorem addNetwork_capacity_witness :
    (getSavedNetworks
        { new Preferences.empty with
          _savedNetworks :=
            [newRecord "a" "pa" 5, newRecord "b" "pb" 4, newRecord "c" "pc" 3,
              newRecord "d" "pd" 2, newRecord "e" "pe" 1] }).length ≤ MAX_SAVED_NETWORKS ∧
      (getSavedNetworks
          (addNetwork insertionSorter
            { new Preferences.empty with
              _savedNetworks :=
                [newRecord "a" "pa" 5, newRecord "b" "pb" 4, newRecord "c" "pc" 3,
                  newRecord "d" "pd" 2, newRecord "e" "pe" 1] }
            "f" "pf" 9).2).length ≤ MAX_SAVED_NETWORKS :=
  ⟨by decide, (addNetwork_capacity insertionSorter _ "f" "pf" 9 (by decide)).1⟩

/-! ## Invariant of a full store under further additions -/

theorem rankBefore_false_priority {a b : NetworkInfo} (h : rankBefore a b = false) :
    a.priority ≤ b.priority := by
  simp only [rankBefore, Bool.or_eq_false_iff, Bool.and_eq_false_iff,
    decide_eq_false_iff_not] at h
  omega

/-- The last record of a sorted vector is lowest-ranked. -/
theorem sort_last_lowest (S : Sorter) (l : List NetworkInfo) (h : S.sort l ≠ []) :
    ∀ r ∈ (S.sort l).dropLast, rankBefore ((S.sort l).getLast h) r = false := by
  have hs := S.sorted l
  unfold RankSorted at hs
  rw [← List.dropLast_append_getLast h, List.pairwise_append] at hs
  intro r hr
  exact hs.2.2 r hr _ (List.mem_singleton.2 rfl)

theorem nodup_of_map_ssid {l : List NetworkInfo} (h : (l.map NetworkInfo.ssid).Nodup) :
    l.Nodup := List.Nodup.of_map _ h

theorem addNetworks_append (S : Sorter) (xs ys : List (String × String × Int)) :
    ∀ m, addNetworks S m (xs ++ ys) = addNetworks S (addNetworks S m xs) ys := by
  induction xs with
  | nil => intro m; rfl
  | cons c xs ih => intro m; exact ih _

/-- Below capacity, distinct ssids are appended in call order. -/
theorem addNetworks_below_capacity (S : Sorter) (calls : List (String × String × Int)) :
    ∀ m : Manager, (m._savedNetworks.map NetworkInfo.ssid ++ calls.map Prod.fst).Nodup →
      m._savedNetworks.length + calls.length ≤ MAX_SAVED_NETWORKS →
      (addNetworks S m calls)._savedNetworks = m._savedNetworks ++ calls.map callRecord := by
  induction calls with
  | nil => intro m _ _; simp [addNetworks]
  | cons c rest ih =>
    intro m hnd hlen
    have hc : c.1 ∉ m._savedNetworks.map NetworkInfo.ssid := by
      intro hmem
      exact (List.nodup_append.1 hnd).2.2 hmem (by simp)
    have hsaved : (addNetwork S m c.1 c.2.1 c.2.2).2._savedNetworks =
        m._savedNetworks ++ [callRecord c] := by
      rw [addNetwork_saved_absent S m _ _ _ (findNetwork_none.2 hc)]
      have : ¬ m._savedNetworks.length ≥ MAX_SAVED_NETWORKS := by
        simp only [List.length_cons] at hlen; omega
      simp [this, callRecord]
    have hnd2 : ((addNetwork S m c.1 c.2.1 c.2.2).2._savedNetworks.map NetworkInfo.ssid
        ++ rest.map Prod.fst).Nodup := by
      rw [hsaved]
      simpa [callRecord, newRecord, List.append_assoc] using hnd
    have := ih (addNetwork S m c.1 c.2.1 c.2.2).2 hnd2
      (by rw [hsaved]; simp only [List.length_append, List.length_cons, List.length_nil] at hlen ⊢
          omega)
    simp only [addNetworks]
    rw [this, hsaved]
    simp

theorem fullStoreInv_step (S : Sorter) (m : Manager) (done : List (String × String × Int))
    (c : String × String × Int) (hinv : FullStoreInv done m._savedNetworks)
    (hnd : ((done ++ [c]).map Prod.fst).Nodup) :
    FullStoreInv (done ++ [c]) (addNetwork S m c.1 c.2.1 c.2.2).2._savedNetworks := by
  obtain ⟨kept, l, hst, -, hlen, hnds, hsub, hev⟩ := hinv
  rw [List.map_append, List.nodup_append] at hnd
  obtain ⟨hnd_done, -, hdisj⟩ := hnd
  have hc_done : c.1 ∉ done.map Prod.fst := fun h => hdisj h (by simp)
  have hssid_sub : ∀ r ∈ m._savedNetworks, r.ssid ∈ done.map Prod.fst := by
    intro r hr
    obtain ⟨c0, hc0, rfl⟩ := hsub r hr
    exact List.mem_map.2 ⟨c0, hc0, rfl⟩
  have hc : c.1 ∉ m._savedNetworks.map NetworkInfo.ssid := by
    intro hmem
    obtain ⟨r, hr, hrc⟩ := List.mem_map.1 hmem
    exact hc_done (hrc ▸ hssid_sub r hr)
  have hlen5 : m._savedNetworks.length = 5 := by rw [hst]; simp [hlen]
  have hperm := S.perm m._savedNetworks
  have hne : S.sort m._savedNetworks ≠ [] := by
    intro h0
    have := hperm.length_eq
    rw [h0, hlen5] at this
    simp at this
  have hsplit := List.dropLast_append_getLast hne
  have hlow := sort_last_lowest S m._savedNetworks hne
  have hnd_sorted : (S.sort m._savedNetworks).Nodup :=
    hperm.nodup_iff.2 (nodup_of_map_ssid hnds)
  have hkept_sub : ∀ r ∈ (S.sort m._savedNetworks).dropLast, r ∈ m._savedNetworks :=
    fun r hr => hperm.subset ((List.dropLast_sublist _).subset hr)
  have hsaved : (addNetwork S m c.1 c.2.1 c.2.2).2._savedNetworks =
      (S.sort m._savedNetworks).dropLast ++ [callRecord c] := by
    rw [addNetwork_saved_absent S m _ _ _ (findNetwork_none.2 hc)]
    simp [hlen5, MAX_SAVED_NETWORKS, callRecord]
  rw [hsaved]
  refine ⟨(S.sort m._savedNetworks).dropLast, c, rfl, by simp, ?_, ?_, ?_, ?_⟩
  · rw [List.length_dropLast, hperm.length_eq, hlen5]
  · rw [List.map_append, List.nodup_append]
    refine ⟨?_, by simp, ?_⟩
    · exact ((hperm.map NetworkInfo.ssid).nodup_iff.2 hnds).sublist
        ((List.dropLast_sublist _).map _)
    · intro s hs hs2
      have hs2 : s = c.1 := by simpa [callRecord, newRecord] using hs2
      obtain ⟨r, hr, rfl⟩ := List.mem_map.1 hs
      exact hc_done (hs2 ▸ hssid_sub r (hkept_sub r hr))
  · intro r hr
    rcases List.mem_append.1 hr with hr | hr
    · obtain ⟨c0, hc0, h0⟩ := hsub r (hkept_sub r hr)
      exact ⟨c0, List.mem_append.2 (Or.inl hc0), h0⟩
    · exact ⟨c, by simp, List.mem_singleton.1 hr⟩
  · intro c0 hc0 hnot r hr
    rw [List.map_append, List.mem_append, not_or] at hnot
    have hc0_done : c0 ∈ done := by
      rcases List.mem_append.1 hc0 with h | h
      · exact h
      · exfalso
        rw [List.mem_singleton.1 h] at hnot
        exact hnot.2 (by simp [callRecord, newRecord])
    have he_r := rankBefore_false_priority (hlow r hr)
    by_cases hin : c0.1 ∈ m._savedNetworks.map NetworkInfo.ssid
    · -- the record of `c0` was stored and is the one evicted now
      obtain ⟨x, hx, hxc⟩ := List.mem_map.1 hin
      have hx_sorted : x ∈ S.sort m._savedNetworks := hperm.mem_iff.2 hx
      rw [← hsplit, List.mem_append] at hx_sorted
      rcases hx_sorted with hxk | hxe
      · exact absurd (List.mem_map.2 ⟨x, hxk, hxc⟩) hnot.1
      · obtain ⟨c1, hc1, hx1⟩ := hsub x hx
        have h11 : c1.1 = c0.1 := by rw [← hxc, hx1]; rfl
        have hc10 : c1 = c0 := List.inj_on_of_nodup_map hnd_done hc1 hc0_done h11
        have hxe : x = (S.sort m._savedNetworks).getLast hne := List.mem_singleton.1 hxe
        have hp : c0.2.2 = ((S.sort m._savedNetworks).getLast hne).priority := by
          rw [← hxe, hx1, hc10]; rfl
        omega
    · -- `c0` was evicted earlier
      have hr_st := hkept_sub r hr
      have he_st : (S.sort m._savedNetworks).getLast hne ∈ m._savedNetworks :=
        hperm.subset (List.getLast_mem hne)
      have hne_r : r ≠ (S.sort m._savedNetworks).getLast hne := by
        intro heq
        have hnd2 := hnd_sorted
        rw [← hsplit, List.nodup_append] at hnd2
        exact hnd2.2.2 hr (by rw [heq]; simp)
      have he_st2 : (S.sort m._savedNetworks).getLast hne ∈ kept ++ [callRecord l] := by
        rw [← hst]; exact he_st
      rw [hst] at hr_st
      rw [List.mem_append] at hr_st he_st2
      rcases hr_st with hrk | hrl
      · exact hev c0 hc0_done hin r hrk
      · rcases he_st2 with hek | hel
        · have := hev c0 hc0_done hin _ hek
          omega
        · exact absurd ((List.mem_singleton.1 hrl).trans (List.mem_singleton.1 hel).symm) hne_r

theorem fullStoreInv_addNetworks (S : Sorter) (rest : List (String × String × Int)) :
    ∀ (m : Manager) (done : List (String × String × Int)),
      FullStoreInv done m._savedNetworks → ((done ++ rest).map Prod.fst).Nodup →
      FullStoreInv (done ++ rest) (addNetworks S m rest)._savedNetworks := by
  induction rest with
  | nil => intro m done h _; simpa [addNetworks] using h
  | cons c rest ih =>
    intro m done h hnd
    have hnd1 : ((done ++ [c]).map Prod.fst).Nodup := by
      have : (done ++ c :: rest) = (done ++ [c]) ++ rest := by simp
      rw [this, List.map_append] at hnd
      exact (List.nodup_append.1 hnd).1
    have hstep := fullStoreInv_step S m done c h hnd1
    have := ih (addNetwork S m c.1 c.2.1 c.2.2).2 (done ++ [c]) hstep (by simpa using hnd)
    simpa [addNetworks] using this

theorem fullStoreInv_first_five (c1 c2 c3 c4 c5 : String × String × Int)
    (hnd : (([c1, c2, c3, c4, c5] : List (String × String × Int)).map Prod.fst).Nodup) :
    FullStoreInv [c1, c2, c3, c4, c5] ([c1, c2, c3, c4, c5].map callRecord) := by
  refine ⟨[callRecord c1, callRecord c2, callRecord c3, callRecord c4], c5, by simp, by simp,
    by simp, ?_, ?_, ?_⟩
  · simpa [callRecord, newRecord] using hnd
  · intro r hr
    obtain ⟨c, hc, rfl⟩ := List.mem_map.1 hr
    exact ⟨c, hc, rfl⟩
  · intro c hc hnot
    exact absurd (List.mem_map.2 ⟨callRecord c, List.mem_map.2 ⟨c, hc, rfl⟩, rfl⟩) hnot

/-- The invariant holds after any sequence of more than five distinct ssids. -/
theorem fullStoreInv_savedAfterAdds (S : Sorter) (m0 : Manager)
    (calls : List (String × String × Int)) (hd : (calls.map Prod.fst).Nodup)
    (hl : calls.length > MAX_SAVED_NETWORKS) : FullStoreInv calls (savedAfterAdds S m0 calls) := by
  match calls, hl with
  | c1 :: c2 :: c3 :: c4 :: c5 :: rest, _ =>
    have happ : c1 :: c2 :: c3 :: c4 :: c5 :: rest = [c1, c2, c3, c4, c5] ++ rest := rfl
    rw [happ] at hd ⊢
    have hd5 : (([c1, c2, c3, c4, c5] : List (String × String × Int)).map Prod.fst).Nodup := by
      rw [List.map_append] at hd
      exact (List.nodup_append.1 hd).1
    unfold savedAfterAdds getSavedNetworks
    rw [addNetworks_append]
    apply fullStoreInv_addNetworks S rest _ _ _ hd
    rw [addNetworks_below_capacity S [c1, c2, c3, c4, c5] _ (by simpa using hd5)
      (by simp [MAX_SAVED_NETWORKS])]
    simpa using fullStoreInv_first_five c1 c2 c3 c4 c5 hd5

/-! ## C2: what a sequence of additions retains -/

/-- C2 fails as stated: six calls with distinct ssids on an empty store. The
sixth call evicts `e` (priority 6) and stores `f` (priority 1), so the stored
record `f` has a strictly lower priority than the added record `e`, which is
not stored. The five records present at the eviction have distinct priorities,
so their sorted order does not depend on the sorting algorithm. -/
theorem addNetworks_top5_counterexample :
    (top5Calls.map Prod.fst).Nodup ∧ top5Calls.length > MAX_SAVED_NETWORKS ∧
      (savedAfterAdds insertionSorter (new Preferences.empty) top5Calls).map
          (fun n => (n.ssid, n.priority)) =
        [("a", 10), ("b", 9), ("c", 8), ("d", 7), ("f", 1)] ∧
      ∃ r ∈ savedAfterAdds insertionSorter (new Preferences.empty) top5Calls,
        ∃ c ∈ top5Calls,
          c.1 ∉ (savedAfterAdds insertionSorter (new Preferences.empty) top5Calls).map
              NetworkInfo.ssid ∧
            r.priority < c.2.2 := by
  refine ⟨by decide, by decide, by decide, callRecord ("f", "pf", 1), by decide,
    ("e", "pe", 6), by decide, by decide, by decide⟩

/-- Records that are each the record of some call are the records of a list
of calls taken from those calls. -/
theorem records_of_calls (calls : List (String × String × Int)) (l : List NetworkInfo)
    (h : ∀ r ∈ l, ∃ c ∈ calls, r = callRecord c) :
    ∃ stored : List (String × String × Int),
      (∀ c ∈ stored, c ∈ calls) ∧ l = stored.map callRecord := by
  induction l with
  | nil => exact ⟨[], by simp, rfl⟩
  | cons r l ih =>
    obtain ⟨c, hc, hr⟩ := h r (List.mem_cons_self r l)
    obtain ⟨stored, hs, hl⟩ := ih (fun x hx => h x (List.mem_cons_of_mem r hx))
    refine ⟨c :: stored, ?_, by rw [List.map_cons, ← hr, ← hl]⟩
    intro x hx
    rcases List.mem_cons.1 hx with rfl | hx
    · exact hc
    · exact hs x hx

/-- C2, amended. After a sequence of more than `MAX_SAVED_NETWORKS` (5)
`addNetwork` calls with pairwise distinct ssids on an empty store, the saved
list holds exactly 5 of the added entries (the records of 5 different calls, so
that its ssids are pairwise distinct), among them the entry added last
(whatever its priority); every stored record other than the one added last has
a priority at least as high as every added entry that is not stored. -/
theorem addNetworks_retention (S : Sorter) (m0 : Manager)
    (calls : List (String × String × Int)) (hd : (calls.map Prod.fst).Nodup)
    (hl : calls.length > MAX_SAVED_NETWORKS) :
    (savedAfterAdds S m0 calls).length = MAX_SAVED_NETWORKS ∧
      (∀ r ∈ savedAfterAdds S m0 calls, ∃ c ∈ calls, r = callRecord c) ∧
      ((savedAfterAdds S m0 calls).map NetworkInfo.ssid).Nodup ∧
      (∃ stored : List (String × String × Int),
        stored.Nodup ∧ (stored.map Prod.fst).Nodup ∧ (∀ c ∈ stored, c ∈ calls) ∧
          stored.length = MAX_SAVED_NETWORKS ∧
          savedAfterAdds S m0 calls = stored.map callRecord) ∧
      ∃ last, calls.getLast? = some last ∧ callRecord last ∈ savedAfterAdds S m0 calls ∧
        ∀ r ∈ savedAfterAdds S m0 calls, r ≠ callRecord last →
          ∀ c ∈ calls, c.1 ∉ (savedAfterAdds S m0 calls).map NetworkInfo.ssid →
            c.2.2 ≤ r.priority := by
  obtain ⟨kept, l, hst, hlast, hlen, hnd, hsub, hev⟩ :=
    fullStoreInv_savedAfterAdds S m0 calls hd hl
  have hlen5 : (savedAfterAdds S m0 calls).length = MAX_SAVED_NETWORKS := by
    rw [hst]; simp [hlen, MAX_SAVED_NETWORKS]
  refine ⟨hlen5, hsub, hnd, ?_, l, hlast, by rw [hst]; simp, ?_⟩
  · obtain ⟨stored, hs, heq⟩ := records_of_calls calls _ hsub
    have hfst : (stored.map Prod.fst).Nodup := by
      have h1 := hnd
      rw [heq, List.map_map] at h1
      exact h1
    refine ⟨stored, List.Nodup.of_map _ hfst, hfst, hs, ?_, heq⟩
    have h5 := hlen5
    rw [heq, List.length_map] at h5
    exact h5
  · intro r hr hne c hc hnot
    rw [hst, List.mem_append] at hr
    rcases hr with hr | hr
    · exact hev c hc hnot r hr
    · exact absurd (List.mem_singleton.1 hr) hne

/-- C2 amended, at seven calls with priorities 3, 1, 4, 1, 5, 9, 2. -/
theorem addNetworks_retention_witness :
    (([("a", "pa", 3), ("b", "pb", 1), ("c", "pc", 4), ("d", "pd", 1), ("e", "pe", 5),
          ("f", "pf", 9), ("g", "pg", 2)] : List (String × String × Int)).map Prod.fst).Nodup ∧
      (savedAfterAdds insertionSorter (new Preferences.empty)
          [("a", "pa", 3), ("b", "pb", 1), ("c", "pc", 4), ("d", "pd", 1), ("e", "pe", 5),
            ("f", "pf", 9), ("g", "pg", 2)]).length = MAX_SAVED_NETWORKS :=
  ⟨by decide,
    (addNetworks_retention insertionSorter (new Preferences.empty) _ (by decide) (by decide)).1⟩

/-! ## C3: a second `addNetwork` of the same ssid updates in place -/

theorem map_ssid_modify (l : List NetworkInfo) (f : NetworkInfo → NetworkInfo)
    (hf : ∀ n, (f n).ssid = n.ssid) :
    ∀ idx, (l.modify f idx).map NetworkInfo.ssid = l.map NetworkInfo.ssid := by
  induction l with
  | nil => intro idx; cases idx <;> simp
  | cons a l ih =>
    intro idx
    cases idx with
    | zero => simp [hf]
    | succ k => simp [ih k]

/-- `addNetwork` keeps the saved ssids pairwise distinct. -/
theorem addNetwork_nodup (S : Sorter) (m : Manager) (ssid password : String) (priority : Int)
    (h : (m._savedNetworks.map NetworkInfo.ssid).Nodup) :
    ((addNetwork S m ssid password priority).2._savedNetworks.map NetworkInfo.ssid).Nodup := by
  cases hf : findNetwork ssid m._savedNetworks with
  | some idx =>
    rw [addNetwork_saved_found S m ssid password priority idx hf, map_ssid_modify _
      (fun n => { n with password := password, priority := priority }) (fun _ => rfl)]
    exact h
  | none =>
    rw [addNetwork_saved_absent S m ssid password priority hf]
    have hnot := findNetwork_none.1 hf
    have hsort : ((S.sort m._savedNetworks).dropLast.map NetworkInfo.ssid).Nodup :=
      (((S.perm m._savedNetworks).map NetworkInfo.ssid).nodup_iff.2 h).sublist
        ((List.dropLast_sublist _).map _)
    have hsort_not : ssid ∉ (S.sort m._savedNetworks).dropLast.map NetworkInfo.ssid := by
      intro hmem
      obtain ⟨r, hr, hrs⟩ := List.mem_map.1 hmem
      exact hnot (List.mem_map.2
        ⟨r, (S.perm m._savedNetworks).subset ((List.dropLast_sublist _).subset hr), hrs⟩)
    split
    · rw [List.map_append, List.nodup_append]
      refine ⟨hsort, by simp, ?_⟩
      intro s hs hs2
      have : s = ssid := by simpa [newRecord] using hs2
      exact hsort_not (this ▸ hs)
    · rw [List.map_append, List.nodup_append]
      refine ⟨h, by simp, ?_⟩
      intro s hs hs2
      have : s = ssid := by simpa [newRecord] using hs2
      exact hnot (this ▸ hs)

/-- After `addNetwork(ssid, ..)` a record with this ssid is saved. -/
theorem addNetwork_mem_ssid (S : Sorter) (m : Manager) (ssid password : String)
    (priority : Int) :
    ssid ∈ (addNetwork S m ssid password priority).2._savedNetworks.map NetworkInfo.ssid := by
  cases hf : findNetwork ssid m._savedNetworks with
  | some idx =>
    rw [addNetwork_saved_found S m ssid password priority idx hf, map_ssid_modify _
      (fun n => { n with password := password, priority := priority }) (fun _ => rfl)]
    obtain ⟨pre, n, post, hl, -, hn, -⟩ := findNetwork_some hf
    rw [hl]
    simp [hn]
  | none =>
    rw [addNetwork_saved_absent S m ssid password priority hf]
    simp [newRecord]

/-- On a list with distinct ssids, updating the found record leaves exactly one
record of that ssid: the updated one. -/
theorem addNetwork_found_filter (S : Sorter) (m : Manager) (ssid password : String)
    (priority : Int) (h : (m._savedNetworks.map NetworkInfo.ssid).Nodup)
    (hmem : ssid ∈ m._savedNetworks.map NetworkInfo.ssid) :
    ∃ r, (addNetwork S m ssid password priority).2._savedNetworks.filter
          (fun n => decide (n.ssid = ssid)) = [r] ∧
      r.password = password ∧ r.priority = priority ∧
      (addNetwork S m ssid password priority).2._savedNetworks.length =
        m._savedNetworks.length := by
  obtain ⟨idx, hf⟩ := findNetwork_isSome_of_mem hmem
  obtain ⟨pre, n, post, hl, hidx, hn, hpre⟩ := findNetwork_some hf
  rw [addNetwork_saved_found S m ssid password priority idx hf, List.length_modify, hl, hidx,
    modify_at_length]
  rw [hl, List.map_append, List.map_cons, List.nodup_append, List.nodup_cons] at h
  have hpost : ∀ x ∈ post, x.ssid ≠ ssid := by
    intro x hx hxs
    exact h.2.1.1 (List.mem_map.2 ⟨x, hx, hxs.trans hn.symm⟩)
  refine ⟨{ n with password := password, priority := priority }, ?_, rfl, rfl, rfl⟩
  rw [List.filter_append, List.filter_cons]
  have h1 : pre.filter (fun n => decide (n.ssid = ssid)) = [] :=
    List.filter_eq_nil_iff.2 (fun x hx => by simpa using hpre x hx)
  have h2 : post.filter (fun n => decide (n.ssid = ssid)) = [] :=
    List.filter_eq_nil_iff.2 (fun x hx => by simpa using hpost x hx)
  simp [h1, h2, hn]

/-- C3. Update-not-duplicate: on a store whose saved ssids are pairwise distinct,
`addNetwork(ssid, pass, p)` followed by `addNetwork(ssid, pass2, p2)` leaves
exactly one saved record with that ssid, with password `pass2` and priority
`p2`; the saved ssids are still pairwise distinct, and the second call does not
change the number of records. -/
theorem addNetwork_twice_updates (S : Sorter) (m : Manager) (ssid pass pass2 : String)
    (p p2 : Int) (h : ((getSavedNetworks m).map NetworkInfo.ssid).Nodup) :
    (∃ r,
        (getSavedNetworks
            (addNetwork S (addNetwork S m ssid pass p).2 ssid pass2 p2).2).filter
          (fun n => decide (n.ssid = ssid)) = [r] ∧
        r.password = pass2 ∧ r.priority = p2) ∧
      ((getSavedNetworks
          (addNetwork S (addNetwork S m ssid pass p).2 ssid pass2 p2).2).map
        NetworkInfo.ssid).Nodup ∧
      (getSavedNetworks (addNetwork S (addNetwork S m ssid pass p).2 ssid pass2 p2).2).length =
        (getSavedNetworks (addNetwork S m ssid pass p).2).length := by
  have h1 := addNetwork_nodup S m ssid pass p h
  obtain ⟨r, hr, hpw, hpr, hlen⟩ :=
    addNetwork_found_filter S (addNetwork S m ssid pass p).2 ssid pass2 p2 h1
      (addNetwork_mem_ssid S m ssid pass p)
  exact ⟨⟨r, hr, hpw, hpr⟩, addNetwork_nodup S _ ssid pass2 p2 h1, hlen⟩

/-- C3 at a store of two networks: `home` is added twice. -/
theorem addNetwork_twice_updates_witness :
    ((getSavedNetworks
          { new Preferences.empty with
            _savedNetworks := [newRecord "office" "o1" 2, newRecord "cafe" "" 1] }).map
        NetworkInfo.ssid).Nodup ∧
      (getSavedNetworks
          (addNetwork insertionSorter
            (addNetwork insertionSorter
              { new Preferences.empty with
                _savedNetworks := [newRecord "office" "o1" 2, newRecord "cafe" "" 1] }
              "home" "old" 3).2
            "home" "fresh" 7).2).length =
        (getSavedNetworks
          (addNetwork insertionSorter
            { new Preferences.empty with
              _savedNetworks := [newRecord "office" "o1" 2, newRecord "cafe" "" 1] }
            "home" "old" 3).2).length :=
  ⟨by decide, (addNetwork_twice_updates insertionSorter _ "home" "old" "fresh" 3 7 (by decide)).2.2⟩

/-! ## C4: eviction at capacity -/

/-- Sorting and dropping the last record removes one lowest-ranked record. -/
theorem sort_dropLast_erase (S : Sorter) (l : List NetworkInfo) (hnd : l.Nodup) (hne : l ≠ []) :
    ∃ e ∈ l, (S.sort l).dropLast.Perm (l.erase e) ∧ e ∉ (S.sort l).dropLast ∧
      ∀ r ∈ l.erase e, rankBefore e r = false := by
  have hperm := S.perm l
  have hne2 : S.sort l ≠ [] := fun h0 => hne (List.perm_nil.1 (h0 ▸ hperm.symm))
  have hsplit := List.dropLast_append_getLast hne2
  have hnd2 : (S.sort l).Nodup := hperm.nodup_iff.2 hnd
  have hnotin : (S.sort l).getLast hne2 ∉ (S.sort l).dropLast := by
    intro hmem
    rw [← hsplit, List.nodup_append] at hnd2
    exact hnd2.2.2 hmem (by simp)
  have hp : (S.sort l).dropLast.Perm (l.erase ((S.sort l).getLast hne2)) := by
    have h1 := hperm.erase ((S.sort l).getLast hne2)
    have h2 : ∀ (s : List NetworkInfo) (x : NetworkInfo), x ∉ s.dropLast →
        s.dropLast ++ [x] = s → s.erase x = s.dropLast := by
      intro s x hx hs
      conv_lhs => rw [← hs]
      rw [List.erase_append_right _ hx]
      simp
    have h2 := h2 _ _ hnotin hsplit
    rw [h2] at h1
    exact h1
  refine ⟨(S.sort l).getLast hne2, hperm.subset (List.getLast_mem hne2), hp, hnotin, ?_⟩
  intro r hr
  exact sort_last_lowest S l hne2 r (hp.symm.subset hr)

/-- C4. Eviction policy: on a store of exactly `MAX_SAVED_NETWORKS` (5) records
with distinct ssids, `addNetwork` of an ssid that is not stored removes exactly
one old record `e`, which is lowest-ranked (no remaining old record has a lower
priority, nor an equal priority with a weaker signal); the other 4 old records
are kept with unchanged fields, and the new record (ssid, password, priority,
saved = true) is present. -/
theorem addNetwork_evicts_lowest (S : Sorter) (m : Manager) (ssid password : String)
    (priority : Int) (hlen : (getSavedNetworks m).length = MAX_SAVED_NETWORKS)
    (hnd : ((getSavedNetworks m).map NetworkInfo.ssid).Nodup)
    (habs : ssid ∉ (getSavedNetworks m).map NetworkInfo.ssid) :
    ∃ e ∈ getSavedNetworks m,
      (getSavedNetworks (addNetwork S m ssid password priority).2).Perm
          ((getSavedNetworks m).erase e ++ [newRecord ssid password priority]) ∧
        ((getSavedNetworks m).erase e).length = 4 ∧
        e ∉ getSavedNetworks (addNetwork S m ssid password priority).2 ∧
        (∀ r ∈ (getSavedNetworks m).erase e,
          ¬ r.priority < e.priority ∧ ¬ (r.priority = e.priority ∧ r.rssi < e.rssi)) ∧
        ∃ n ∈ getSavedNetworks (addNetwork S m ssid password priority).2,
          n.ssid = ssid ∧ n.password = password ∧ n.priority = priority ∧ n.saved = true := by
  unfold getSavedNetworks at *
  have hne : m._savedNetworks ≠ [] := by
    intro h0; rw [h0] at hlen; simp [MAX_SAVED_NETWORKS] at hlen
  obtain ⟨e, he, hp, hnotin, hlow⟩ :=
    sort_dropLast_erase S m._savedNetworks (nodup_of_map_ssid hnd) hne
  have hsaved : (addNetwork S m ssid password priority).2._savedNetworks =
      (S.sort m._savedNetworks).dropLast ++ [newRecord ssid password priority] := by
    rw [addNetwork_saved_absent S m _ _ _ (findNetwork_none.2 habs)]
    simp [hlen]
  rw [hsaved]
  refine ⟨e, he, hp.append_right _, ?_, ?_, ?_, newRecord ssid password priority, by simp,
    rfl, rfl, rfl, rfl⟩
  · rw [List.length_erase_of_mem he, hlen]; rfl
  · intro hmem
    rcases List.mem_append.1 hmem with h | h
    · exact hnotin h
    · have hes : e.ssid = ssid := by rw [List.mem_singleton.1 h]; rfl
      exact habs (List.mem_map.2 ⟨e, he, hes⟩)
  · intro r hr
    have := hlow r hr
    simp only [rankBefore, Bool.or_eq_false_iff, Bool.and_eq_false_iff,
      decide_eq_false_iff_not] at this
    constructor <;> omega

/-- C4 at a full store with priorities 5, 1, 4, 2, 3: adding `f` evicts `b`. -/
theorem addNetwork_evicts_lowest_witness :
    (getSavedNetworks
        { new Preferences.empty with
          _savedNetworks :=
            [newRecord "a" "pa" 5, newRecord "b" "pb" 1, newRecord "c" "pc" 4,
              newRecord "d" "pd" 2, newRecord "e" "pe" 3] }).length = MAX_SAVED_NETWORKS ∧
      ∃ e ∈ getSavedNetworks
          { new Preferences.empty with
            _savedNetworks :=
              [newRecord "a" "pa" 5, newRecord "b" "pb" 1, newRecord "c" "pc" 4,
                newRecord "d" "pd" 2, newRecord "e" "pe" 3] },
        e ∉ getSavedNetworks
          (addNetwork insertionSorter
            { new Preferences.empty with
              _savedNetworks :=
                [newRecord "a" "pa" 5, newRecord "b" "pb" 1, newRecord "c" "pc" 4,
                  newRecord "d" "pd" 2, newRecord "e" "pe" 3] }
            "f" "pf" 0).2 := by
  refine ⟨by decide, ?_⟩
  obtain ⟨e, he, -, -, hne, -⟩ :=
    addNetwork_evicts_lowest insertionSorter
      { new Preferences.empty with
        _savedNetworks :=
          [newRecord "a" "pa" 5, newRecord "b" "pb" 1, newRecord "c" "pc" 4,
            newRecord "d" "pd" 2, newRecord "e" "pe" 3] }
      "f" "pf" 0 (by decide) (by decide) (by decide)
  exact ⟨e, he, hne⟩

/-! ## The keys of the persistence service are pairwise different -/

theorem digitChar_val : ∀ d < 10, (Nat.digitChar d).toNat - 48 = d := by decide

theorem toDigitsCore_val (fuel : Nat) :
    ∀ (n : Nat) (ds : List Char), n < fuel →
      ∃ xs, Nat.toDigitsCore 10 fuel n ds = xs ++ ds ∧ digitsVal xs = n := by
  induction fuel with
  | zero => intro n ds h; omega
  | succ f ih =>
    intro n ds h
    simp only [Nat.toDigitsCore]
    split
    · rename_i h0
      refine ⟨[Nat.digitChar (n % 10)], rfl, ?_⟩
      simp only [digitsVal, List.foldl_cons, List.foldl_nil]
      rw [digitChar_val _ (Nat.mod_lt _ (by norm_num))]
      omega
    · rename_i h0
      obtain ⟨xs, hxs, hv⟩ := ih (n / 10) (Nat.digitChar (n % 10) :: ds) (by omega)
      refine ⟨xs ++ [Nat.digitChar (n % 10)], by simp [hxs], ?_⟩
      unfold digitsVal at hv ⊢
      rw [List.foldl_append, hv]
      simp only [List.foldl_cons, List.foldl_nil]
      rw [digitChar_val _ (Nat.mod_lt _ (by norm_num))]
      omega

theorem repr_val (n : Nat) : digitsVal (Nat.repr n).data = n := by
  obtain ⟨xs, hxs, hv⟩ := toDigitsCore_val (n + 1) n [] (Nat.lt_succ_self n)
  simp only [Nat.repr, Nat.toDigits, List.asString, hxs, List.append_nil]
  exact hv

theorem toString_nat_inj {i j : Nat} (h : toString i = toString j) : i = j := by
  have h2 : Nat.repr i = Nat.repr j := h
  rw [← repr_val i, ← repr_val j, h2]

theorem ssidKey_inj {i j : Nat} (h : ssidKey i = ssidKey j) : i = j := by
  unfold ssidKey at h
  have hd : (toString i).data = (toString j).data := by simpa [String.ext_iff] using h
  exact toString_nat_inj (String.ext hd)

theorem passKey_inj {i j : Nat} (h : passKey i = passKey j) : i = j := by
  unfold passKey at h
  have hd : (toString i).data = (toString j).data := by simpa [String.ext_iff] using h
  exact toString_nat_inj (String.ext hd)

theorem prioKey_inj {i j : Nat} (h : prioKey i = prioKey j) : i = j := by
  unfold prioKey at h
  have hd : (toString i).data = (toString j).data := by simpa [String.ext_iff] using h
  exact toString_nat_inj (String.ext hd)

theorem ssidKey_ne_passKey (i j : Nat) : ssidKey i ≠ passKey j := by
  simp [ssidKey, passKey, String.ext_iff]

theorem ssidKey_ne_prioKey (i j : Nat) : ssidKey i ≠ prioKey j := by
  simp [ssidKey, prioKey, String.ext_iff]

theorem passKey_ne_prioKey (i j : Nat) : passKey i ≠ prioKey j := by
  simp [passKey, prioKey, String.ext_iff]

theorem ssidKey_ne_num (i : Nat) : ssidKey i ≠ "numNetworks" := by
  simp [ssidKey, String.ext_iff]

theorem passKey_ne_num (i : Nat) : passKey i ≠ "numNetworks" := by
  simp [passKey, String.ext_iff]

theorem prioKey_ne_num (i : Nat) : prioKey i ≠ "numNetworks" := by
  simp [prioKey, String.ext_iff]

/-! ## What `saveNetworks` leaves in the persistence service -/

/-- The loop of `saveNetworks` from index `start` touches only keys of index
`start` or more. -/
theorem saveLoop_other (nets : List NetworkInfo) :
    ∀ (start : Nat) (p : Preferences) (k : String),
      (∀ j, start ≤ j → k ≠ ssidKey j ∧ k ≠ passKey j ∧ k ≠ prioKey j) →
      (saveLoop nets start p).entries k = p.entries k := by
  induction nets with
  | nil => intro start p k _; rfl
  | cons n rest ih =>
    intro start p k hk
    unfold saveLoop
    rw [ih (start + 1) _ k (fun j hj => hk j (by omega))]
    have := hk start (Nat.le_refl _)
    simp [Preferences.putInt, Preferences.putString, this.1, this.2.1, this.2.2]

theorem saveLoop_num (nets : List NetworkInfo) (start : Nat) (p : Preferences) :
    (saveLoop nets start p).entries "numNetworks" = p.entries "numNetworks" :=
  saveLoop_other nets start p _
    (fun j _ => ⟨(ssidKey_ne_num j).symm, (passKey_ne_num j).symm, (prioKey_ne_num j).symm⟩)

theorem saveLoop_ssid (nets : List NetworkInfo) :
    ∀ (start : Nat) (p : Preferences) (i : Nat) (h : i < nets.length),
      (saveLoop nets start p).entries (ssidKey (start + i)) = some (PrefValue.str nets[i].ssid) := by
  induction nets with
  | nil => intro start p i h; simp at h
  | cons n rest ih =>
    intro start p i h
    cases i with
    | zero =>
      unfold saveLoop
      rw [saveLoop_other rest (start + 1) _ _ (fun j hj =>
        ⟨fun e => by have := ssidKey_inj e; omega, ssidKey_ne_passKey _ _, ssidKey_ne_prioKey _ _⟩)]
      simp [Preferences.putInt, Preferences.putString, ssidKey_ne_passKey, ssidKey_ne_prioKey]
    | succ k =>
      unfold saveLoop
      have := ih (start + 1) (((p.putString (ssidKey start) n.ssid).putString (passKey start)
        n.password).putInt (prioKey start) n.priority) k (by simpa using h)
      rw [show start + (k + 1) = start + 1 + k by omega]
      simpa using this

theorem saveLoop_pass (nets : List NetworkInfo) :
    ∀ (start : Nat) (p : Preferences) (i : Nat) (h : i < nets.length),
      (saveLoop nets start p).entries (passKey (start + i)) =
        some (PrefValue.str nets[i].password) := by
  induction nets with
  | nil => intro start p i h; simp at h
  | cons n rest ih =>
    intro start p i h
    cases i with
    | zero =>
      unfold saveLoop
      rw [saveLoop_other rest (start + 1) _ _ (fun j hj =>
        ⟨(ssidKey_ne_passKey _ _).symm, fun e => by have := passKey_inj e; omega,
          passKey_ne_prioKey _ _⟩)]
      simp [Preferences.putInt, Preferences.putString, passKey_ne_prioKey]
    | succ k =>
      unfold saveLoop
      have := ih (start + 1) (((p.putString (ssidKey start) n.ssid).putString (passKey start)
        n.password).putInt (prioKey start) n.priority) k (by simpa using h)
      rw [show start + (k + 1) = start + 1 + k by omega]
      simpa using this

theorem saveLoop_prio (nets : List NetworkInfo) :
    ∀ (start : Nat) (p : Preferences) (i : Nat) (h : i < nets.length),
      (saveLoop nets start p).entries (prioKey (start + i)) =
        some (PrefValue.int nets[i].priority) := by
  induction nets with
  | nil => intro start p i h; simp at h
  | cons n rest ih =>
    intro start p i h
    cases i with
    | zero =>
      unfold saveLoop
      rw [saveLoop_other rest (start + 1) _ _ (fun j hj =>
        ⟨(ssidKey_ne_prioKey _ _).symm, (passKey_ne_prioKey _ _).symm,
          fun e => by have := prioKey_inj e; omega⟩)]
      simp [Preferences.putInt]
    | succ k =>
      unfold saveLoop
      have := ih (start + 1) (((p.putString (ssidKey start) n.ssid).putString (passKey start)
        n.password).putInt (prioKey start) n.priority) k (by simpa using h)
      rw [show start + (k + 1) = start + 1 + k by omega]
      simpa using this

/-- After `saveNetworks`, `numNetworks` is the length of the saved list. -/
theorem saveNetworks_numNetworks (m : Manager) (d : Int) :
    (saveNetworks m)._preferences.getInt "numNetworks" d = (m._savedNetworks.length : Int) := by
  simp [saveNetworks, Preferences.getInt, saveLoop_num, Preferences.putInt]

/-- After `saveNetworks`, entry `i` holds the fields of record `i`. -/
theorem saveNetworks_entry (m : Manager) (i : Nat) (h : i < m._savedNetworks.length)
    (ds dp : String) (di : Int) :
    (saveNetworks m)._preferences.getString (ssidKey i) ds = m._savedNetworks[i].ssid ∧
      (saveNetworks m)._preferences.getString (passKey i) dp = m._savedNetworks[i].password ∧
      (saveNetworks m)._preferences.getInt (prioKey i) di = m._savedNetworks[i].priority := by
  have h1 := saveLoop_ssid m._savedNetworks 0
    (m._preferences.putInt "numNetworks" (m._savedNetworks.length : Int)) i h
  have h2 := saveLoop_pass m._savedNetworks 0
    (m._preferences.putInt "numNetworks" (m._savedNetworks.length : Int)) i h
  have h3 := saveLoop_prio m._savedNetworks 0
    (m._preferences.putInt "numNetworks" (m._savedNetworks.length : Int)) i h
  rw [Nat.zero_add] at h1 h2 h3
  simp [saveNetworks, Preferences.getInt, Preferences.getString, h1, h2, h3]

/-- What `saveNetworks` writes is the saved list, in its order. -/
theorem persistedRecords_saveNetworks (m : Manager) :
    persistedRecords (saveNetworks m)._preferences = m._savedNetworks.map NetworkInfo.triple := by
  unfold persistedRecords
  rw [saveNetworks_numNetworks]
  apply List.ext_getElem
  · simp
  · intro i h1 h2
    have hi : i < m._savedNetworks.length := by simpa using h2
    obtain ⟨e1, e2, e3⟩ := saveNetworks_entry m i hi "" "" 0
    simp [e1, e2, e3, NetworkInfo.triple]

/-! ## Order of the saved list -/

theorem rankGE_iff (a b : NetworkInfo) : rankGE a b ↔ rankBefore b a = false := by
  simp only [rankGE, rankBefore, Bool.or_eq_false_iff, Bool.and_eq_false_iff,
    decide_eq_false_iff_not]
  omega

theorem nonIncreasing_iff_chain (l : List NetworkInfo) : NonIncreasing l ↔ l.Chain' rankGE := by
  induction l with
  | nil => simp [NonIncreasing]
  | cons a l ih =>
    cases l with
    | nil => simp [NonIncreasing]
    | cons b rest => simp only [NonIncreasing, List.chain'_cons, ih]

theorem nonIncreasing_iff_rankSorted (l : List NetworkInfo) : NonIncreasing l ↔ RankSorted l := by
  rw [nonIncreasing_iff_chain, List.chain'_iff_pairwise]
  unfold RankSorted
  constructor <;> intro h <;> exact h.imp (fun {a b} hab => by
    first
      | exact (rankGE_iff a b).1 hab
      | exact (rankGE_iff a b).2 hab)

theorem nonIncreasing_sort (S : Sorter) (l : List NetworkInfo) : NonIncreasing (S.sort l) :=
  (nonIncreasing_iff_rankSorted _).2 (S.sorted l)

theorem nonIncreasing_eraseIdx (l : List NetworkInfo) (idx : Nat) (h : NonIncreasing l) :
    NonIncreasing (l.eraseIdx idx) := by
  rw [nonIncreasing_iff_rankSorted] at h ⊢
  exact List.Pairwise.sublist (List.eraseIdx_sublist l idx) h

theorem removeNetwork_saved_found (m : Manager) (ssid : String) (idx : Nat)
    (h : findNetwork ssid m._savedNetworks = some idx) :
    removeNetwork m ssid =
      (true, saveNetworks { m with _savedNetworks := m._savedNetworks.eraseIdx idx }) := by
  simp [removeNetwork, h]

theorem removeNetwork_absent (m : Manager) (ssid : String)
    (h : findNetwork ssid m._savedNetworks = none) : removeNetwork m ssid = (false, m) := by
  simp [removeNetwork, h]

theorem removeNetwork_nonIncreasing (m : Manager) (ssid : String)
    (h : NonIncreasing m._savedNetworks) :
    NonIncreasing (removeNetwork m ssid).2._savedNetworks := by
  cases hf : findNetwork ssid m._savedNetworks with
  | none => rw [removeNetwork_absent m ssid hf]; exact h
  | some idx =>
    rw [removeNetwork_saved_found m ssid idx hf]
    exact nonIncreasing_eraseIdx _ idx h

theorem removeNetwork_persisted (m : Manager) (ssid : String)
    (h : (removeNetwork m ssid).1 = true) :
    persistedRecords (removeNetwork m ssid).2._preferences =
      (removeNetwork m ssid).2._savedNetworks.map NetworkInfo.triple := by
  cases hf : findNetwork ssid m._savedNetworks with
  | none => rw [removeNetwork_absent m ssid hf] at h; simp at h
  | some idx =>
    rw [removeNetwork_saved_found m ssid idx hf]
    exact persistedRecords_saveNetworks _

theorem addNetwork_persisted (S : Sorter) (m : Manager) (ssid password : String)
    (priority : Int) :
    persistedRecords (addNetwork S m ssid password priority).2._preferences =
      (addNetwork S m ssid password priority).2._savedNetworks.map NetworkInfo.triple := by
  unfold addNetwork
  split <;> exact persistedRecords_saveNetworks _

theorem setNetworkPriority_persisted (m : Manager) (ssid : String) (priority : Int)
    (h : (setNetworkPriority m ssid priority).1 = true) :
    persistedRecords (setNetworkPriority m ssid priority).2._preferences =
      (setNetworkPriority m ssid priority).2._savedNetworks.map NetworkInfo.triple := by
  unfold setNetworkPriority at h ⊢
  split
  · rename_i hf; simp [hf] at h
  · exact persistedRecords_saveNetworks _

/-! ## C5: which mutations keep the saved list ordered -/

/-- C5 fails as stated. `addNetwork("B", "pb", 5)` on the sorted store `[A]`
(priority 1) appends `B` behind `A`: the saved list and the records written to
persistence are `[A, B]`, priorities 1 then 5. `setNetworkPriority("B", 9)` on
the sorted store `[A, B]` (priorities 5, 1) leaves `B` behind `A`. -/
theorem store_order_counterexample :
    NonIncreasing [newRecord "A" "pa" 1] ∧
      getSavedNetworks
          (addNetwork insertionSorter
            { new Preferences.empty with _savedNetworks := [newRecord "A" "pa" 1] }
            "B" "pb" 5).2 =
        [newRecord "A" "pa" 1, newRecord "B" "pb" 5] ∧
      ¬ NonIncreasing
          (getSavedNetworks
            (addNetwork insertionSorter
              { new Preferences.empty with _savedNetworks := [newRecord "A" "pa" 1] }
              "B" "pb" 5).2) ∧
      persistedRecords
          (addNetwork insertionSorter
            { new Preferences.empty with _savedNetworks := [newRecord "A" "pa" 1] }
            "B" "pb" 5).2._preferences =
        [("A", "pa", 1), ("B", "pb", 5)] ∧
      NonIncreasing [newRecord "A" "pa" 5, newRecord "B" "pb" 1] ∧
      ¬ NonIncreasing
          (getSavedNetworks
            (setNetworkPriority
              { new Preferences.empty with
                _savedNetworks := [newRecord "A" "pa" 5, newRecord "B" "pb" 1] }
              "B" 9).2) := by
  refine ⟨by decide, by decide, by decide, by decide, by decide, by decide⟩

/-- C5, amended. `removeNetwork` applied to a store that was sorted before the
call leaves the saved list non-increasing by (priority, signal), and when it
removes a record it writes the saved list to persistence in that order;
`loadSavedNetworks` leaves the saved list non-increasing. `addNetwork` and a
successful `setNetworkPriority` write the saved list to persistence in the
order it then has, without sorting it. -/
theorem store_order_invariant (S : Sorter) (m : Manager) (ssid password : String)
    (priority : Int) (h : NonIncreasing (getSavedNetworks m)) :
    NonIncreasing (getSavedNetworks (removeNetwork m ssid).2) ∧
      ((removeNetwork m ssid).1 = true →
        persistedRecords (removeNetwork m ssid).2._preferences =
          (getSavedNetworks (removeNetwork m ssid).2).map NetworkInfo.triple) ∧
      NonIncreasing (getSavedNetworks (loadSavedNetworks S m)) ∧
      persistedRecords (addNetwork S m ssid password priority).2._preferences =
        (getSavedNetworks (addNetwork S m ssid password priority).2).map NetworkInfo.triple ∧
      ((setNetworkPriority m ssid priority).1 = true →
        persistedRecords (setNetworkPriority m ssid priority).2._preferences =
          (getSavedNetworks (setNetworkPriority m ssid priority).2).map NetworkInfo.triple) :=
  ⟨removeNetwork_nonIncreasing m ssid h, removeNetwork_persisted m ssid,
    nonIncreasing_sort S _, addNetwork_persisted S m ssid password priority,
    setNetworkPriority_persisted m ssid priority⟩

/-- C5 amended, at the sorted store `[A, B, C]` of the specification's example
(priorities 5, 5, 3, all signals 0), from which `B` is removed. -/
theorem store_order_invariant_witness :
    NonIncreasing
        (getSavedNetworks
          { new Preferences.empty with
            _savedNetworks := [newRecord "A" "pa" 5, newRecord "B" "pb" 5, newRecord "C" "pc" 3] }) ∧
      NonIncreasing
        (getSavedNetworks
          (removeNetwork
            { new Preferences.empty with
              _savedNetworks :=
                [newRecord "A" "pa" 5, newRecord "B" "pb" 5, newRecord "C" "pc" 3] }
            "B").2) :=
  ⟨by decide, (store_order_invariant insertionSorter _ "B" "" 0 (by decide)).1⟩

/-! ## C6: `removeNetwork` -/

/-- C6. `removeNetwork` contract. If no saved record has the ssid, it returns
false and leaves the manager (saved list and persisted data included)
unchanged. If one has, it returns true, the saved list is the old list without
the first record of that ssid (one record less, the others with their fields
and in their order), and the persisted `numNetworks` is the new length. -/
theorem removeNetwork_contract (m : Manager) (ssid : String) :
    (ssid ∉ (getSavedNetworks m).map NetworkInfo.ssid →
        (removeNetwork m ssid).1 = false ∧ (removeNetwork m ssid).2 = m) ∧
      (ssid ∈ (getSavedNetworks m).map NetworkInfo.ssid →
        (removeNetwork m ssid).1 = true ∧
          (∃ pre n post, getSavedNetworks m = pre ++ n :: post ∧ n.ssid = ssid ∧
            (∀ x ∈ pre, x.ssid ≠ ssid) ∧
            getSavedNetworks (removeNetwork m ssid).2 = pre ++ post) ∧
          (getSavedNetworks (removeNetwork m ssid).2).length + 1 =
            (getSavedNetworks m).length ∧
          ∀ d, (removeNetwork m ssid).2._preferences.getInt "numNetworks" d =
            ((getSavedNetworks (removeNetwork m ssid).2).length : Int)) := by
  unfold getSavedNetworks
  constructor
  · intro h
    rw [removeNetwork_absent m ssid (findNetwork_none.2 h)]
    exact ⟨rfl, rfl⟩
  · intro h
    obtain ⟨idx, hf⟩ := findNetwork_isSome_of_mem h
    obtain ⟨pre, n, post, hl, hidx, hn, hpre⟩ := findNetwork_some hf
    rw [removeNetwork_saved_found m ssid idx hf]
    have hnew : (saveNetworks { m with _savedNetworks := m._savedNetworks.eraseIdx idx })._savedNetworks
        = pre ++ post := by
      rw [saveNetworks_savedNetworks, hidx]
      simp only [hl]
      exact eraseIdx_at_length pre n post
    refine ⟨rfl, ⟨pre, n, post, hl, hn, hpre, hnew⟩, ?_, ?_⟩
    · rw [hnew, hl]
      simp only [List.length_append, List.length_cons]
      omega
    · intro d
      rw [saveNetworks_numNetworks]
      rfl

/-- C6 at the store `[home, cafe]`: `cafe` is removed, `attic` is not saved. -/
theorem removeNetwork_contract_witness :
    ("attic" ∉ (getSavedNetworks
          { new Preferences.empty with
            _savedNetworks := [newRecord "home" "h" 2, newRecord "cafe" "" 1] }).map
        NetworkInfo.ssid ∧
      (removeNetwork
          { new Preferences.empty with
            _savedNetworks := [newRecord "home" "h" 2, newRecord "cafe" "" 1] }
          "attic").1 = false) ∧
      ("cafe" ∈ (getSavedNetworks
          { new Preferences.empty with
            _savedNetworks := [newRecord "home" "h" 2, newRecord "cafe" "" 1] }).map
        NetworkInfo.ssid ∧
      (removeNetwork
          { new Preferences.empty with
            _savedNetworks := [newRecord "home" "h" 2, newRecord "cafe" "" 1] }
          "cafe").1 = true) :=
  ⟨⟨by decide, ((removeNetwork_contract _ "attic").1 (by decide)).1⟩,
    ⟨by decide, ((removeNetwork_contract _ "cafe").2 (by decide)).1⟩⟩

/-! ## C7: persistence round trip -/

theorem string_length_pos_iff (s : String) : s.length > 0 ↔ s ≠ "" := by
  rcases s with ⟨_ | ⟨c, cs⟩⟩ <;> simp [String.length, String.ext_iff]

/-- The record `loadSavedNetworks` builds from the persisted fields of `n`. -/
theorem loadEntry_saved (m : Manager) (acc : List NetworkInfo) (i : Nat)
    (h : i < m._savedNetworks.length) (hne : m._savedNetworks[i].ssid ≠ "") :
    loadEntry (saveNetworks m)._preferences acc i =
      acc ++ [newRecord m._savedNetworks[i].ssid m._savedNetworks[i].password
        m._savedNetworks[i].priority] := by
  obtain ⟨e1, e2, e3⟩ := saveNetworks_entry m i h "" "" 0
  unfold loadEntry
  simp only [e1, e2, e3]
  rw [if_pos ((string_length_pos_iff _).2 hne)]
  rfl

theorem loadLoop_saved (m : Manager) (hne : ∀ n ∈ m._savedNetworks, n.ssid ≠ "")
    (acc : List NetworkInfo) :
    ∀ k, k ≤ m._savedNetworks.length →
      (List.range k).foldl (loadEntry (saveNetworks m)._preferences) acc =
        acc ++ (m._savedNetworks.take k).map
          (fun n => newRecord n.ssid n.password n.priority) := by
  intro k
  induction k with
  | zero => intro _; simp
  | succ k ih =>
    intro hk
    have hlt : k < m._savedNetworks.length := by omega
    rw [List.range_succ, List.foldl_append, ih (by omega)]
    simp only [List.foldl_cons, List.foldl_nil]
    rw [loadEntry_saved m _ k hlt (hne _ (List.getElem_mem _)), List.take_succ,
      List.getElem?_eq_getElem hlt]
    simp only [Option.toList, List.map_append, List.map_cons, List.map_nil, List.append_assoc]

/-- The saved list after `saveNetworks` on `m` and `loadSavedNetworks` on a
manager with the same persisted data and an empty saved list. -/
theorem load_after_save (S : Sorter) (m m2 : Manager)
    (hlen : m._savedNetworks.length ≤ MAX_SAVED_NETWORKS)
    (hne : ∀ n ∈ m._savedNetworks, n.ssid ≠ "") :
    (loadSavedNetworks S
        { m2 with _savedNetworks := [], _preferences := (saveNetworks m)._preferences })._savedNetworks =
      S.sort (m._savedNetworks.map (fun n => newRecord n.ssid n.password n.priority)) := by
  unfold loadSavedNetworks
  simp only [saveNetworks_numNetworks]
  have hb : (min (m._savedNetworks.length : Int) (MAX_SAVED_NETWORKS : Int)).toNat =
      m._savedNetworks.length := by
    unfold MAX_SAVED_NETWORKS at *
    omega
  rw [hb, loadLoop_saved m hne [] _ (Nat.le_refl _)]
  simp

/-- C7. Persistence round trip: for a saved list of at most 5 records with
non-empty ssids, `saveNetworks()` followed by `loadSavedNetworks()` on a manager
with the same persistence contents and an empty saved list yields a saved list
with the same multiset of (ssid, password, priority) triples, every record
marked saved, ordered by priority descending. (Distinctness of the ssids is not
needed.) -/
theorem save_load_roundtrip (S : Sorter) (m m2 : Manager)
    (hlen : (getSavedNetworks m).length ≤ MAX_SAVED_NETWORKS)
    (hne : ∀ n ∈ getSavedNetworks m, n.ssid ≠ "") :
    ((getSavedNetworks
          (loadSavedNetworks S
            { m2 with
              _savedNetworks := [], _preferences := (saveNetworks m)._preferences })).map
        NetworkInfo.triple).Perm ((getSavedNetworks m).map NetworkInfo.triple) ∧
      (∀ n ∈ getSavedNetworks
          (loadSavedNetworks S
            { m2 with _savedNetworks := [], _preferences := (saveNetworks m)._preferences }),
        n.saved = true) ∧
      (getSavedNetworks
          (loadSavedNetworks S
            { m2 with
              _savedNetworks := [], _preferences := (saveNetworks m)._preferences })).Pairwise
        (fun a b => a.priority ≥ b.priority) := by
  unfold getSavedNetworks at *
  rw [load_after_save S m m2 hlen hne]
  have hperm := S.perm (m._savedNetworks.map (fun n => newRecord n.ssid n.password n.priority))
  refine ⟨?_, ?_, ?_⟩
  · have h1 := hperm.map NetworkInfo.triple
    simpa [NetworkInfo.triple, newRecord, Function.comp_def] using h1
  · intro n hn
    obtain ⟨x, -, rfl⟩ := List.mem_map.1 (hperm.subset hn)
    rfl
  · exact (S.sorted _).imp (fun {a b} hab => rankBefore_false_priority hab)

/-- C7 at the saved list `[cafe, home]` (priorities 1 and 2). -/
theorem save_load_roundtrip_witness :
    (getSavedNetworks
        { new Preferences.empty with
          _savedNetworks := [newRecord "cafe" "" 1, newRecord "home" "h" 2] }).length
        ≤ MAX_SAVED_NETWORKS ∧
      ((getSavedNetworks
          (loadSavedNetworks insertionSorter
            { new Preferences.empty with
              _savedNetworks := [],
              _preferences :=
                (saveNetworks
                  { new Preferences.empty with
                    _savedNetworks :=
                      [newRecord "cafe" "" 1, newRecord "home" "h" 2] })._preferences })).map
        NetworkInfo.triple).Perm
        ((getSavedNetworks
          { new Preferences.empty with
            _savedNetworks := [newRecord "cafe" "" 1, newRecord "home" "h" 2] }).map
          NetworkInfo.triple) :=
  ⟨by decide,
    (save_load_roundtrip insertionSorter
      { new Preferences.empty with
        _savedNetworks := [newRecord "cafe" "" 1, newRecord "home" "h" 2] }
      (new Preferences.empty) (by decide) (by decide)).1⟩

/-! ## C8, C9: `connect` -/

/-- `addNetwork` changes the saved list and the persisted data only. -/
theorem addNetwork_frame (S : Sorter) (m : Manager) (ssid password : String) (priority : Int) :
    (addNetwork S m ssid password priority).1 = true ∧
      (addNetwork S m ssid password priority).2 =
        { m with
          _savedNetworks := (addNetwork S m ssid password priority).2._savedNetworks
          _preferences := (addNetwork S m ssid password priority).2._preferences } := by
  unfold addNetwork
  split <;> exact ⟨rfl, rfl⟩

/-- After `addNetwork(ssid, password, priority)` a saved record has exactly
these three fields. -/
theorem addNetwork_contains (S : Sorter) (m : Manager) (ssid password : String)
    (priority : Int) :
    ∃ n ∈ (addNetwork S m ssid password priority).2._savedNetworks,
      n.ssid = ssid ∧ n.password = password ∧ n.priority = priority := by
  cases hf : findNetwork ssid m._savedNetworks with
  | some idx =>
    obtain ⟨pre, n, post, hl, hidx, hn, -⟩ := findNetwork_some hf
    rw [addNetwork_saved_found S m ssid password priority idx hf, hl, hidx, modify_at_length]
    exact ⟨{ n with password := password, priority := priority }, by simp, hn, rfl, rfl⟩
  | none =>
    rw [addNetwork_saved_absent S m ssid password priority hf]
    exact ⟨newRecord ssid password priority, by simp, rfl, rfl, rfl⟩

theorem connect_enabled (S : Sorter) (m : Manager) (now : Nat) (ssid password : String)
    (save : Bool) (priority : Int) (h : m._enabled = true) :
    connect S m now ssid password save priority =
      (true,
        if save then (addNetwork S (connectRequested m now ssid password) ssid password priority).2
        else connectRequested m now ssid password) := by
  simp [connect, h, connectRequested]

theorem connectRequested_fields (m : Manager) (now : Nat) (ssid password : String) :
    (connectRequested m now ssid password)._state = WiFiState.WIFI_CONNECTING ∧
      (connectRequested m now ssid password)._connectingSSID = ssid ∧
      (connectRequested m now ssid password)._connectingPassword = password ∧
      (connectRequested m now ssid password)._lastConnectionAttempt = now ∧
      (connectRequested m now ssid password)._connectionAttempts = 1 ∧
      (connectRequested m now ssid password)._manualDisconnect = false ∧
      (connectRequested m now ssid password)._savedNetworks = m._savedNetworks ∧
      (connectRequested m now ssid password)._preferences = m._preferences ∧
      (connectRequested m now ssid password)._enabled = m._enabled ∧
      (connectRequested m now ssid password).radioLog =
        m.radioLog ++ [RadioCmd.disconnect, RadioCmd.begin ssid password] := by
  unfold connectRequested notifyStatus radio
  split <;> simp

/-- C8. `connect` rejected while disabled: with `_enabled = false` it returns
false and leaves the whole manager unchanged (connection state, target
credentials, attempt counter and timestamp, manual-disconnect flag, saved list,
persisted data); in particular no radio request is issued and no status
notification is delivered. -/
theorem connect_disabled (S : Sorter) (m : Manager) (now : Nat) (ssid password : String)
    (save : Bool) (priority : Int) (h : m._enabled = false) :
    (connect S m now ssid password save priority).1 = false ∧
      (connect S m now ssid password save priority).2 = m ∧
      (connect S m now ssid password save priority).2.radioLog = m.radioLog ∧
      (connect S m now ssid password save priority).2.statusLog = m.statusLog := by
  simp [connect, h]

/-- C8 at a freshly constructed (disabled) manager with the status callback set. -/
theorem connect_disabled_witness :
    ({ new Preferences.empty with _statusCallback := true } : Manager)._enabled = false ∧
      (connect insertionSorter { new Preferences.empty with _statusCallback := true } 1234
        "home" "secret" true 3).1 = false :=
  ⟨rfl, (connect_disabled insertionSorter _ 1234 "home" "secret" true 3 rfl).1⟩

/-- C9. `connect` postcondition: on an enabled manager, at clock value `t`,
`connect(ssid, password, save, priority)` returns true; afterwards the state is
Connecting, the target credentials are (ssid, password), the attempt timestamp
is `t`, the attempt counter is 1 and the manual-disconnect flag is false. If
`save` is true the saved list contains a record for `ssid` with that password
and priority, and the persisted records are the saved list; if `save` is false
the saved list and the persisted data are unchanged. -/
theorem connect_postcondition (S : Sorter) (m : Manager) (t : Nat) (ssid password : String)
    (save : Bool) (priority : Int) (h : m._enabled = true) :
    (connect S m t ssid password save priority).1 = true ∧
      getState (connect S m t ssid password save priority).2 = WiFiState.WIFI_CONNECTING ∧
      (connect S m t ssid password save priority).2._connectingSSID = ssid ∧
      (connect S m t ssid password save priority).2._connectingPassword = password ∧
      (connect S m t ssid password save priority).2._lastConnectionAttempt = t ∧
      (connect S m t ssid password save priority).2._connectionAttempts = 1 ∧
      (connect S m t ssid password save priority).2._manualDisconnect = false ∧
      (save = true →
        (∃ n ∈ getSavedNetworks (connect S m t ssid password save priority).2,
          n.ssid = ssid ∧ n.password = password ∧ n.priority = priority) ∧
        persistedRecords (connect S m t ssid password save priority).2._preferences =
          (getSavedNetworks (connect S m t ssid password save priority).2).map
            NetworkInfo.triple) ∧
      (save = false →
        getSavedNetworks (connect S m t ssid password save priority).2 = getSavedNetworks m ∧
        (connect S m t ssid password save priority).2._preferences = m._preferences) := by
  rw [connect_enabled S m t ssid password save priority h]
  obtain ⟨f1, f2, f3, f4, f5, f6, f7, f8, -, -⟩ := connectRequested_fields m t ssid password
  unfold getState getSavedNetworks
  cases save with
  | false =>
    simp only [Bool.false_eq_true, if_false, false_implies, true_and, true_implies]
    exact ⟨f1, f2, f3, f4, f5, f6, f7, f8⟩
  | true =>
    simp only [if_true, true_implies, Bool.true_eq_false, false_implies, and_true, true_and]
    have hfr := (addNetwork_frame S (connectRequested m t ssid password) ssid password priority).2
    refine ⟨by rw [hfr]; exact f1, by rw [hfr]; exact f2, by rw [hfr]; exact f3,
      by rw [hfr]; exact f4, by rw [hfr]; exact f5, by rw [hfr]; exact f6,
      addNetwork_contains S _ ssid password priority, addNetwork_persisted S _ ssid password priority⟩

/-- C9 at an enabled manager with an empty store: `connect` with `save = true`. -/
theorem connect_postcondition_witness :
    ({ new Preferences.empty with _enabled := true } : Manager)._enabled = true ∧
      getState
          (connect insertionSorter { new Preferences.empty with _enabled := true } 5000 "home"
            "secret" true 3).2 =
        WiFiState.WIFI_CONNECTING :=
  ⟨rfl, (connect_postcondition insertionSorter _ 5000 "home" "secret" true 3 rfl).2.1⟩

/-! ## C10: `connectToBestNetwork` -/

theorem rankBefore_irrefl (a : NetworkInfo) : rankBefore a a = false := by
  simp [rankBefore]

/-- The first record of a sorted vector is of maximal rank. -/
theorem sort_head_highest (S : Sorter) (l : List NetworkInfo) (n : NetworkInfo)
    (rest : List NetworkInfo) (h : S.sort l = n :: rest) :
    ∀ r ∈ l, rankBefore r n = false := by
  have hs := S.sorted l
  unfold RankSorted at hs
  rw [h, List.pairwise_cons] at hs
  intro r hr
  have hr2 : r ∈ n :: rest := h ▸ (S.perm l).mem_iff.2 hr
  rcases List.mem_cons.1 hr2 with rfl | hr2
  · exact rankBefore_irrefl _
  · exact hs.1 r hr2

theorem connectLoop_cons_enabled (S : Sorter) (now : Nat) (n : NetworkInfo)
    (rest : List NetworkInfo) (m : Manager) (he : m._enabled = true) :
    connectLoop S now (n :: rest) m = (true, connectRequested m now n.ssid n.password) := by
  simp [connectLoop, connect_enabled S m now n.ssid n.password false n.priority he]

/-- On an enabled manager with a non-empty saved list, `connectToBestNetwork`
sorts the list and issues `connect` once, for its first record. -/
theorem connectToBestNetwork_enabled (S : Sorter) (m : Manager) (now : Nat)
    (he : m._enabled = true) (hne : m._savedNetworks ≠ []) :
    ∃ n rest, S.sort m._savedNetworks = n :: rest ∧
      connectToBestNetwork S m now =
        (true,
          connectRequested { m with _savedNetworks := S.sort m._savedNetworks } now n.ssid
            n.password) := by
  have hne2 : S.sort m._savedNetworks ≠ [] :=
    fun h0 => hne (List.perm_nil.1 (h0 ▸ (S.perm m._savedNetworks).symm))
  obtain ⟨n, rest, hsort⟩ := List.exists_cons_of_ne_nil hne2
  refine ⟨n, rest, hsort, ?_⟩
  have hcond : (!m._enabled || m._savedNetworks.isEmpty) = false := by
    cases hm : m._savedNetworks with
    | nil => exact absurd hm hne
    | cons a l => simp [he]
  unfold connectToBestNetwork
  rw [hcond, if_neg (by simp)]
  show connectLoop S now (S.sort m._savedNetworks)
      { m with _savedNetworks := S.sort m._savedNetworks } = _
  have := connectLoop_cons_enabled S now n rest
    { m with _savedNetworks := S.sort m._savedNetworks } he
  rw [← hsort] at this
  exact this

/-- C10. `connectToBestNetwork`: if the manager is disabled or the saved list is
empty it returns false and changes nothing (neither the connection state nor
the target). Otherwise it returns true, the state becomes Connecting with
attempt counter 1, the target (ssid, password) is that of a saved record of
maximal rank (no saved record has a higher priority, nor an equal priority
with a stronger signal), and the saved list holds the same records as before,
possibly in another order. -/
theorem connectToBestNetwork_contract (S : Sorter) (m : Manager) (now : Nat) :
    (m._enabled = false ∨ getSavedNetworks m = [] →
        (connectToBestNetwork S m now).1 = false ∧ (connectToBestNetwork S m now).2 = m) ∧
      (m._enabled = true ∧ getSavedNetworks m ≠ [] →
        (connectToBestNetwork S m now).1 = true ∧
          getState (connectToBestNetwork S m now).2 = WiFiState.WIFI_CONNECTING ∧
          (connectToBestNetwork S m now).2._connectionAttempts = 1 ∧
          (∃ n ∈ getSavedNetworks m,
            (connectToBestNetwork S m now).2._connectingSSID = n.ssid ∧
              (connectToBestNetwork S m now).2._connectingPassword = n.password ∧
              ∀ r ∈ getSavedNetworks m,
                ¬ r.priority > n.priority ∧ ¬ (r.priority = n.priority ∧ r.rssi > n.rssi)) ∧
          (getSavedNetworks (connectToBestNetwork S m now).2).Perm (getSavedNetworks m)) := by
  unfold getSavedNetworks getState
  constructor
  · intro h
    unfold connectToBestNetwork
    rcases h with h | h
    · simp [h]
    · simp [h]
  · rintro ⟨he, hne⟩
    obtain ⟨n, rest, hsort, hres⟩ := connectToBestNetwork_enabled S m now he hne
    rw [hres]
    obtain ⟨f1, f2, f3, -, f5, -, f7, -, -, -⟩ :=
      connectRequested_fields { m with _savedNetworks := S.sort m._savedNetworks } now n.ssid
        n.password
    have hn : n ∈ m._savedNetworks :=
      (S.perm m._savedNetworks).subset (hsort ▸ List.mem_cons_self n rest)
    refine ⟨rfl, f1, f5, ⟨n, hn, f2, f3, ?_⟩, ?_⟩
    · intro r hr
      have := sort_head_highest S m._savedNetworks n rest hsort r hr
      simp only [rankBefore, Bool.or_eq_false_iff, Bool.and_eq_false_iff,
        decide_eq_false_iff_not] at this
      constructor <;> omega
    · rw [f7]
      exact S.perm m._savedNetworks

/-- C10 at an enabled manager whose saved list is `[cafe, home]` with
priorities 1 and 2, and at a disabled manager. -/
theorem connectToBestNetwork_contract_witness :
    ((new Preferences.empty)._enabled = false ∧
        (connectToBestNetwork insertionSorter (new Preferences.empty) 7).1 = false) ∧
      (({ new Preferences.empty with
            _enabled := true,
            _savedNetworks := [newRecord "cafe" "" 1, newRecord "home" "h" 2] } : Manager)._enabled
          = true ∧
        (connectToBestNetwork insertionSorter
          { new Preferences.empty with
            _enabled := true,
            _savedNetworks := [newRecord "cafe" "" 1, newRecord "home" "h" 2] }
          7).1 = true) :=
  ⟨⟨rfl, ((connectToBestNetwork_contract insertionSorter (new Preferences.empty) 7).1
      (Or.inl rfl)).1⟩,
    ⟨rfl, ((connectToBestNetwork_contract insertionSorter _ 7).2 ⟨rfl, by decide⟩).1⟩⟩

/-! ## Facts about `connect` and `update` used by the state-machine results -/

theorem updates_append (S : Sorter) (xs ys : List Env) :
    ∀ m, updates S m (xs ++ ys) = updates S (updates S m xs) ys := by
  induction xs with
  | nil => intro m; rfl
  | cons e xs ih => intro m; exact ih _

/-- The fields of the manager after an accepted `connect`. -/
theorem connect_fields (S : Sorter) (m : Manager) (t : Nat) (ssid password : String)
    (save : Bool) (priority : Int) (h : m._enabled = true) :
    (connect S m t ssid password save priority).2._enabled = true ∧
      (connect S m t ssid password save priority).2._state = WiFiState.WIFI_CONNECTING ∧
      (connect S m t ssid password save priority).2._connectingSSID = ssid ∧
      (connect S m t ssid password save priority).2._connectingPassword = password ∧
      (connect S m t ssid password save priority).2._lastConnectionAttempt = t ∧
      (connect S m t ssid password save priority).2._connectionAttempts = 1 ∧
      (connect S m t ssid password save priority).2._manualDisconnect = false := by
  rw [connect_enabled S m t ssid password save priority h]
  obtain ⟨f1, f2, f3, f4, f5, f6, -, -, f9, -⟩ := connectRequested_fields m t ssid password
  cases save with
  | false =>
    simp only [Bool.false_eq_true, if_false]
    exact ⟨f9.trans h, f1, f2, f3, f4, f5, f6⟩
  | true =>
    simp only [if_true]
    have hfr := (addNetwork_frame S (connectRequested m t ssid password) ssid password priority).2
    refine ⟨by rw [hfr]; exact f9.trans h, by rw [hfr]; exact f1, by rw [hfr]; exact f2,
      by rw [hfr]; exact f3, by rw [hfr]; exact f4, by rw [hfr]; exact f5, by rw [hfr]; exact f6⟩

theorem update_connecting (S : Sorter) (m : Manager) (env : Env) (he : m._enabled = true)
    (hs : m._state = WiFiState.WIFI_CONNECTING) : update S m env = updateConnecting m env := by
  simp [update, updateState, he, hs]

/-- While Connecting and not associated, an update before the timeout changes
nothing. -/
theorem update_connecting_wait (S : Sorter) (m : Manager) (env : Env) (he : m._enabled = true)
    (hs : m._state = WiFiState.WIFI_CONNECTING) (hc : env.connected = false)
    (ht : elapsed env.millis m._lastConnectionAttempt ≤ CONNECTION_TIMEOUT) :
    update S m env = m := by
  rw [update_connecting S m env he hs]
  unfold updateConnecting
  simp [hc, Nat.not_lt.2 ht]

theorem updates_connecting_wait (S : Sorter) (m : Manager) (he : m._enabled = true)
    (hs : m._state = WiFiState.WIFI_CONNECTING) (q : List Env)
    (hq : ∀ e ∈ q, e.connected = false ∧
      elapsed e.millis m._lastConnectionAttempt ≤ CONNECTION_TIMEOUT) :
    updates S m q = m := by
  induction q with
  | nil => rfl
  | cons e q ih =>
    unfold updates
    rw [update_connecting_wait S m e he hs (hq e (by simp)).1 (hq e (by simp)).2]
    exact ih (fun e2 h2 => hq e2 (List.mem_cons_of_mem _ h2))

/-- While Connecting and not associated, an update after the timeout with
attempts left retries. -/
theorem update_connecting_retry (S : Sorter) (m : Manager) (env : Env) (he : m._enabled = true)
    (hs : m._state = WiFiState.WIFI_CONNECTING) (hc : env.connected = false)
    (ht : elapsed env.millis m._lastConnectionAttempt > CONNECTION_TIMEOUT)
    (hk : m._connectionAttempts < MAX_CONNECTION_ATTEMPTS) :
    update S m env = afterRetry m env.millis (m._connectionAttempts + 1) := by
  rw [update_connecting S m env he hs]
  unfold updateConnecting afterRetry notifyStatus radio
  simp only [hc, Bool.false_eq_true, if_false, ht, if_true, hk]
  split <;> rfl

/-- While Connecting and not associated, an update after the timeout with no
attempt left gives up. -/
theorem update_connecting_fail (S : Sorter) (m : Manager) (env : Env) (he : m._enabled = true)
    (hs : m._state = WiFiState.WIFI_CONNECTING) (hc : env.connected = false)
    (ht : elapsed env.millis m._lastConnectionAttempt > CONNECTION_TIMEOUT)
    (hk : ¬ m._connectionAttempts < MAX_CONNECTION_ATTEMPTS) :
    update S m env = afterFailure m := by
  rw [update_connecting S m env he hs]
  unfold updateConnecting afterFailure notifyStatus
  simp only [hc, Bool.false_eq_true, if_false, ht, if_true, hk]
  split <;> rfl

/-! ## C11: retry cap of a connection attempt -/

/-- C11. Retry cap. Let `m0` be the state produced by a successful
`connect(ssid, password)` at clock value `t`, and let the radio never report
associated. Updates at which the time since the last attempt does not exceed
`CONNECTION_TIMEOUT` (the lists `q0`, `q1`, `q2`) change nothing. The first and
the second update at which it does (`e1`, `e2`) keep the state Connecting,
re-issue the same (ssid, password) to the radio, reset the attempt timestamp and
raise the attempt counter to 2 and then 3. The third such update (`e3`) sets the
state to Disconnected and notifies "Connection failed to <ssid>", which differs
from the retry messages; over the whole run exactly two retries are issued. -/
theorem connect_retry_cap (S : Sorter) (m m0 : Manager) (t : Nat) (ssid password : String)
    (save : Bool) (priority : Int) (q0 q1 q2 : List Env) (e1 e2 e3 : Env)
    (he : m._enabled = true) (hm0 : m0 = (connect S m t ssid password save priority).2)
    (h0 : ∀ e ∈ q0, e.connected = false ∧ elapsed e.millis t ≤ CONNECTION_TIMEOUT)
    (h1 : e1.connected = false ∧ elapsed e1.millis t > CONNECTION_TIMEOUT)
    (hq1 : ∀ e ∈ q1, e.connected = false ∧ elapsed e.millis e1.millis ≤ CONNECTION_TIMEOUT)
    (h2 : e2.connected = false ∧ elapsed e2.millis e1.millis > CONNECTION_TIMEOUT)
    (hq2 : ∀ e ∈ q2, e.connected = false ∧ elapsed e.millis e2.millis ≤ CONNECTION_TIMEOUT)
    (h3 : e3.connected = false ∧ elapsed e3.millis e2.millis > CONNECTION_TIMEOUT) :
    updates S m0 q0 = m0 ∧
      update S m0 e1 = afterRetry m0 e1.millis 2 ∧
      updates S (afterRetry m0 e1.millis 2) q1 = afterRetry m0 e1.millis 2 ∧
      update S (afterRetry m0 e1.millis 2) e2 =
        afterRetry (afterRetry m0 e1.millis 2) e2.millis 3 ∧
      updates S (afterRetry (afterRetry m0 e1.millis 2) e2.millis 3) q2 =
        afterRetry (afterRetry m0 e1.millis 2) e2.millis 3 ∧
      update S (afterRetry (afterRetry m0 e1.millis 2) e2.millis 3) e3 =
        afterFailure (afterRetry (afterRetry m0 e1.millis 2) e2.millis 3) ∧
      updates S m0 (q0 ++ e1 :: (q1 ++ e2 :: (q2 ++ [e3]))) =
        afterFailure (afterRetry (afterRetry m0 e1.millis 2) e2.millis 3) ∧
      (getState (afterRetry m0 e1.millis 2) = WiFiState.WIFI_CONNECTING ∧
        (afterRetry m0 e1.millis 2)._connectionAttempts = 2 ∧
        (afterRetry m0 e1.millis 2)._lastConnectionAttempt = e1.millis ∧
        (afterRetry m0 e1.millis 2).radioLog = m0.radioLog ++ [RadioCmd.begin ssid password]) ∧
      (getState (afterRetry (afterRetry m0 e1.millis 2) e2.millis 3) =
          WiFiState.WIFI_CONNECTING ∧
        (afterRetry (afterRetry m0 e1.millis 2) e2.millis 3)._connectionAttempts = 3 ∧
        (afterRetry (afterRetry m0 e1.millis 2) e2.millis 3)._lastConnectionAttempt =
          e2.millis ∧
        (afterRetry (afterRetry m0 e1.millis 2) e2.millis 3).radioLog =
          m0.radioLog ++ [RadioCmd.begin ssid password, RadioCmd.begin ssid password]) ∧
      (getState (afterFailure (afterRetry (afterRetry m0 e1.millis 2) e2.millis 3)) =
          WiFiState.WIFI_DISCONNECTED ∧
        (afterFailure (afterRetry (afterRetry m0 e1.millis 2) e2.millis 3)).radioLog =
          m0.radioLog ++ [RadioCmd.begin ssid password, RadioCmd.begin ssid password] ∧
        (m0._statusCallback = true →
          (afterFailure (afterRetry (afterRetry m0 e1.millis 2) e2.millis 3)).statusLog =
            m0.statusLog ++
              [(WiFiState.WIFI_CONNECTING, "Retrying connection (2/3)"),
                (WiFiState.WIFI_CONNECTING, "Retrying connection (3/3)"),
                (WiFiState.WIFI_DISCONNECTED, "Connection failed to " ++ ssid)])) ∧
      "Connection failed to " ++ ssid ≠ "Retrying connection (2/3)" ∧
      "Connection failed to " ++ ssid ≠ "Retrying connection (3/3)" := by
  obtain ⟨c1, c2, c3, c4, c5, c6, -⟩ := connect_fields S m t ssid password save priority he
  rw [← hm0] at c1 c2 c3 c4 c5 c6
  have r1e : (afterRetry m0 e1.millis 2)._enabled = true := c1
  have r1s : (afterRetry m0 e1.millis 2)._state = WiFiState.WIFI_CONNECTING := c2
  have r2e : (afterRetry (afterRetry m0 e1.millis 2) e2.millis 3)._enabled = true := c1
  have r2s : (afterRetry (afterRetry m0 e1.millis 2) e2.millis 3)._state =
      WiFiState.WIFI_CONNECTING := c2
  have s0 : updates S m0 q0 = m0 :=
    updates_connecting_wait S m0 c1 c2 q0 (by rw [c5]; exact h0)
  have s1 : update S m0 e1 = afterRetry m0 e1.millis 2 := by
    rw [update_connecting_retry S m0 e1 c1 c2 h1.1 (by rw [c5]; exact h1.2)
      (by rw [c6]; decide), c6]
    rfl
  have s2 : updates S (afterRetry m0 e1.millis 2) q1 = afterRetry m0 e1.millis 2 :=
    updates_connecting_wait S _ r1e r1s q1 hq1
  have s3 : update S (afterRetry m0 e1.millis 2) e2 =
      afterRetry (afterRetry m0 e1.millis 2) e2.millis 3 := by
    rw [update_connecting_retry S _ e2 r1e r1s h2.1 h2.2
      (by show (2 : Int) < MAX_CONNECTION_ATTEMPTS; decide)]
    rfl
  have s4 : updates S (afterRetry (afterRetry m0 e1.millis 2) e2.millis 3) q2 =
      afterRetry (afterRetry m0 e1.millis 2) e2.millis 3 :=
    updates_connecting_wait S _ r2e r2s q2 hq2
  have s5 : update S (afterRetry (afterRetry m0 e1.millis 2) e2.millis 3) e3 =
      afterFailure (afterRetry (afterRetry m0 e1.millis 2) e2.millis 3) :=
    update_connecting_fail S _ e3 r2e r2s h3.1 h3.2
      (by show ¬ (3 : Int) < MAX_CONNECTION_ATTEMPTS; decide)
  refine ⟨s0, s1, s2, s3, s4, s5, ?_, ⟨r1s, rfl, rfl, ?_⟩, ⟨r2s, rfl, rfl, ?_⟩, ⟨rfl, ?_, ?_⟩,
    ?_, ?_⟩
  · rw [updates_append, s0]
    show updates S (update S m0 e1) _ = _
    rw [s1, updates_append, s2]
    show updates S (update S _ e2) _ = _
    rw [s3, updates_append, s4]
    show update S _ e3 = _
    exact s5
  · simp [afterRetry, c3, c4]
  · simp [afterRetry, c3, c4]
  · simp [afterRetry, afterFailure, c3, c4]
  · intro hcb
    simp only [afterRetry, afterFailure, hcb, if_true, c2, c3, List.append_assoc,
      List.cons_append, List.nil_append]
    have e23 : "Retrying connection (" ++ toString (2 : Int) ++ "/" ++
        toString MAX_CONNECTION_ATTEMPTS ++ ")" = "Retrying connection (2/3)" := by decide
    have e33 : "Retrying connection (" ++ toString (3 : Int) ++ "/" ++
        toString MAX_CONNECTION_ATTEMPTS ++ ")" = "Retrying connection (3/3)" := by decide
    rw [e23, e33]
  · simp [String.ext_iff]
  · simp [String.ext_iff]

/-- C11 at `connect("home", "secret")` issued at 1000 ms: updates at 5000
(waiting), 12000 (first retry), 23000 (second retry), 30000 (waiting) and 34000
(failure). -/
theorem connect_retry_cap_witness :
    ((idleEnv 12000).connected = false ∧
        elapsed (idleEnv 12000).millis 1000 > CONNECTION_TIMEOUT) ∧
      ((idleEnv 23000).connected = false ∧
        elapsed (idleEnv 23000).millis (idleEnv 12000).millis > CONNECTION_TIMEOUT) ∧
      ((idleEnv 34000).connected = false ∧
        elapsed (idleEnv 34000).millis (idleEnv 23000).millis > CONNECTION_TIMEOUT) ∧
      getState
          (updates insertionSorter
            (connect insertionSorter
              { new Preferences.empty with _enabled := true, _statusCallback := true } 1000
              "home" "secret" false 0).2
            ([idleEnv 5000] ++ idleEnv 12000 :: ([] ++ idleEnv 23000 ::
              ([idleEnv 30000] ++ [idleEnv 34000])))) =
        WiFiState.WIFI_DISCONNECTED := by
  have h :=
    connect_retry_cap insertionSorter
      { new Preferences.empty with _enabled := true, _statusCallback := true } _ 1000 "home"
      "secret" false 0 [idleEnv 5000] [] [idleEnv 30000] (idleEnv 12000) (idleEnv 23000)
      (idleEnv 34000) rfl rfl (by decide) (by decide) (by decide) (by decide) (by decide)
      (by decide)
  refine ⟨by decide, by decide, by decide, ?_⟩
  rw [h.2.2.2.2.2.2.1]
  exact h.2.2.2.2.2.2.2.2.2.1.1

/-! ## `notifyStatus` touches the notification log only -/

@[simp] theorem notifyStatus_state (m : Manager) (msg : String) :
    (notifyStatus m msg)._state = m._state := by
  unfold notifyStatus; split <;> rfl

@[simp] theorem notifyStatus_enabled (m : Manager) (msg : String) :
    (notifyStatus m msg)._enabled = m._enabled := by
  unfold notifyStatus; split <;> rfl

@[simp] theorem notifyStatus_manualDisconnect (m : Manager) (msg : String) :
    (notifyStatus m msg)._manualDisconnect = m._manualDisconnect := by
  unfold notifyStatus; split <;> rfl

@[simp] theorem notifyStatus_scanInProgress (m : Manager) (msg : String) :
    (notifyStatus m msg)._scanInProgress = m._scanInProgress := by
  unfold notifyStatus; split <;> rfl

@[simp] theorem notifyStatus_lastConnectionAttempt (m : Manager) (msg : String) :
    (notifyStatus m msg)._lastConnectionAttempt = m._lastConnectionAttempt := by
  unfold notifyStatus; split <;> rfl

@[simp] theorem notifyStatus_connectionAttempts (m : Manager) (msg : String) :
    (notifyStatus m msg)._connectionAttempts = m._connectionAttempts := by
  unfold notifyStatus; split <;> rfl

@[simp] theorem notifyStatus_savedNetworks (m : Manager) (msg : String) :
    (notifyStatus m msg)._savedNetworks = m._savedNetworks := by
  unfold notifyStatus; split <;> rfl

@[simp] theorem notifyStatus_scanResults (m : Manager) (msg : String) :
    (notifyStatus m msg)._scanResults = m._scanResults := by
  unfold notifyStatus; split <;> rfl

@[simp] theorem notifyStatus_scanCallback (m : Manager) (msg : String) :
    (notifyStatus m msg)._scanCallback = m._scanCallback := by
  unfold notifyStatus; split <;> rfl

@[simp] theorem notifyStatus_radioLog (m : Manager) (msg : String) :
    (notifyStatus m msg).radioLog = m.radioLog := by
  unfold notifyStatus; split <;> rfl

@[simp] theorem notifyStatus_scanLog (m : Manager) (msg : String) :
    (notifyStatus m msg).scanLog = m.scanLog := by
  unfold notifyStatus; split <;> rfl

theorem notifyStatus_statusLog (m : Manager) (msg : String) :
    (notifyStatus m msg).statusLog =
      if m._statusCallback then m.statusLog ++ [(m._state, msg)] else m.statusLog := by
  unfold notifyStatus; split <;> rfl

/-! ## C12, C13: `startScan` and `connect` against each other -/

/-- C12. `startScan` rejection: on a manager that is disabled or has a scan in
progress, `startScan()` returns false and leaves the whole manager unchanged
(connection state, in-progress flag, scan start time, previous scan results);
no radio request is issued, no status notification and no scan-result event is
delivered. -/
theorem startScan_rejected (m : Manager) (now : Nat)
    (h : isEnabled m = false ∨ isScanning m = true) :
    (startScan m now).1 = false ∧ (startScan m now).2 = m ∧
      (startScan m now).2.radioLog = m.radioLog ∧
      (startScan m now).2.statusLog = m.statusLog ∧
      (startScan m now).2.scanLog = m.scanLog := by
  unfold isEnabled isScanning at h
  unfold startScan
  rcases h with h | h <;> simp [h]

/-- C12 at a disabled manager and at an enabled manager that is scanning. -/
theorem startScan_rejected_witness :
    (isEnabled (new Preferences.empty) = false ∧
        (startScan (new Preferences.empty) 10).1 = false) ∧
      (isScanning (startScan { new Preferences.empty with _enabled := true } 10).2 = true ∧
        (startScan (startScan { new Preferences.empty with _enabled := true } 10).2 20).1 =
          false) :=
  ⟨⟨rfl, (startScan_rejected (new Preferences.empty) 10 (Or.inl rfl)).1⟩,
    ⟨by decide, (startScan_rejected _ 20 (Or.inr (by decide))).1⟩⟩

/-- An accepted `startScan`: enabled and no scan in progress. -/
theorem startScan_accepted (m : Manager) (now : Nat) (he : m._enabled = true)
    (hs : m._scanInProgress = false) :
    (startScan m now).1 = true ∧ (startScan m now).2._state = WiFiState.WIFI_SCANNING := by
  unfold startScan
  rw [if_neg (by simp [he, hs])]
  exact ⟨rfl, by simp [radio]⟩

/-- C13 fails as stated. On an enabled manager in state Connecting (after
`connect("home", "secret")`), `startScan()` returns true and the state becomes
Scanning; on an enabled manager in state Scanning (after `startScan()`),
`connect("home", "secret", false, 0)` returns true and the state becomes
Connecting. -/
theorem scan_connect_exclusion_counterexample :
    getState
          (connect insertionSorter { new Preferences.empty with _enabled := true } 10 "home"
            "secret" false 0).2 = WiFiState.WIFI_CONNECTING ∧
      (startScan
          (connect insertionSorter { new Preferences.empty with _enabled := true } 10 "home"
            "secret" false 0).2 20).1 = true ∧
      getState
          (startScan
            (connect insertionSorter { new Preferences.empty with _enabled := true } 10 "home"
              "secret" false 0).2 20).2 = WiFiState.WIFI_SCANNING ∧
      getState (startScan { new Preferences.empty with _enabled := true } 10).2 =
        WiFiState.WIFI_SCANNING ∧
      (connect insertionSorter (startScan { new Preferences.empty with _enabled := true } 10).2
          20 "home" "secret" false 0).1 = true ∧
      getState
          (connect insertionSorter
            (startScan { new Preferences.empty with _enabled := true } 10).2 20 "home" "secret"
            false 0).2 = WiFiState.WIFI_CONNECTING := by
  refine ⟨by decide, by decide, by decide, by decide, by decide, by decide⟩

/-- C13, amended. Scan and connect requests pre-empt each other instead of
being rejected. For every enabled manager, `startScan()` called while the state
is Connecting (and no scan is in progress) returns true and the state becomes
Scanning; `connect(ssid, password, save, priority)` called while the state is
Scanning returns true and the state becomes Connecting. -/
theorem scan_connect_preemption (S : Sorter) (m : Manager) (now : Nat) (ssid password : String)
    (save : Bool) (priority : Int) (he : isEnabled m = true) :
    (getState m = WiFiState.WIFI_CONNECTING → isScanning m = false →
        (startScan m now).1 = true ∧
          getState (startScan m now).2 = WiFiState.WIFI_SCANNING) ∧
      (getState m = WiFiState.WIFI_SCANNING →
        (connect S m now ssid password save priority).1 = true ∧
          getState (connect S m now ssid password save priority).2 =
            WiFiState.WIFI_CONNECTING) := by
  unfold isEnabled at he
  unfold getState isScanning
  refine ⟨fun _ hs => startScan_accepted m now he hs, fun _ => ?_⟩
  have hc := connect_fields S m now ssid password save priority he
  exact ⟨by rw [connect_enabled S m now ssid password save priority he], hc.2.1⟩

/-- C13 amended, at an enabled manager that is connecting to `home`. -/
theorem scan_connect_preemption_witness :
    isEnabled
          (connect insertionSorter { new Preferences.empty with _enabled := true } 10 "home"
            "secret" false 0).2 = true ∧
      (startScan
          (connect insertionSorter { new Preferences.empty with _enabled := true } 10 "home"
            "secret" false 0).2 20).1 = true :=
  ⟨by decide,
    ((scan_connect_preemption insertionSorter
      (connect insertionSorter { new Preferences.empty with _enabled := true } 10 "home"
        "secret" false 0).2 20 "x" "y" false 0 (by decide)).1 (by decide) (by decide)).1⟩

/-! ## C14: no automatic activity while disabled -/

theorem update_disabled (S : Sorter) (m : Manager) (env : Env) (h : m._enabled = false) :
    update S m env = m := by
  simp [update, h]

theorem updates_disabled (S : Sorter) (m : Manager) (h : m._enabled = false) (envs : List Env) :
    updates S m envs = m := by
  induction envs with
  | nil => rfl
  | cons e rest ih =>
    unfold updates
    rw [update_disabled S m e h]
    exact ih

/-- `setEnabled(false)` on an enabled manager. -/
theorem setEnabled_false (S : Sorter) (m : Manager) (now : Nat) (he : m._enabled = true) :
    setEnabled S m now false =
      notifyStatus
        { radio (disconnect { m with _enabled := false } true) RadioCmd.modeOFF with
          _state := WiFiState.WIFI_DISABLED }
        "WiFi disabled" := by
  simp [setEnabled, he]

theorem setEnabled_false_fields (S : Sorter) (m : Manager) (now : Nat)
    (he : m._enabled = true) :
    (setEnabled S m now false)._state = WiFiState.WIFI_DISABLED ∧
      (setEnabled S m now false)._enabled = false ∧
      (setEnabled S m now false)._manualDisconnect = true := by
  rw [setEnabled_false S m now he]
  simp [radio, disconnect]

/-- C14. No automatic activity while disabled: for every enabled manager, after
`setEnabled(false)` the state is Disabled and enabled is false; and whatever the
clock values and radio statuses read (also more than `RECONNECT_INTERVAL` after
the last attempt), any number of `update()` calls leaves the manager unchanged:
no radio request is issued and no notification is delivered. -/
theorem disabled_no_activity (S : Sorter) (m : Manager) (now : Nat) (envs : List Env)
    (he : isEnabled m = true) :
    getState (setEnabled S m now false) = WiFiState.WIFI_DISABLED ∧
      isEnabled (setEnabled S m now false) = false ∧
      updates S (setEnabled S m now false) envs = setEnabled S m now false ∧
      (updates S (setEnabled S m now false) envs).radioLog =
        (setEnabled S m now false).radioLog ∧
      (updates S (setEnabled S m now false) envs).statusLog =
        (setEnabled S m now false).statusLog ∧
      (updates S (setEnabled S m now false) envs).scanLog =
        (setEnabled S m now false).scanLog := by
  obtain ⟨f1, f2, -⟩ := setEnabled_false_fields S m now he
  have hu := updates_disabled S (setEnabled S m now false) f2 envs
  exact ⟨f1, f2, hu, by rw [hu], by rw [hu], by rw [hu]⟩

/-- C14 at a manager with one saved network, disabled at 1000 ms and updated at
40000 ms (not associated) and at 90000 ms (associated). -/
theorem disabled_no_activity_witness :
    isEnabled
        { new Preferences.empty with
          _enabled := true, _savedNetworks := [newRecord "home" "secret" 1] } = true ∧
      updates insertionSorter
          (setEnabled insertionSorter
            { new Preferences.empty with
              _enabled := true, _savedNetworks := [newRecord "home" "secret" 1] }
            1000 false)
          [idleEnv 40000, associatedEnv 90000 "home"] =
        setEnabled insertionSorter
          { new Preferences.empty with
            _enabled := true, _savedNetworks := [newRecord "home" "secret" 1] }
          1000 false :=
  ⟨rfl,
    (disabled_no_activity insertionSorter
      { new Preferences.empty with
        _enabled := true, _savedNetworks := [newRecord "home" "secret" 1] }
      1000 [idleEnv 40000, associatedEnv 90000 "home"] rfl).2.2.1⟩

/-! ## C15: `setEnabled` -/

/-- `setEnabled(true)` on a disabled manager. -/
theorem setEnabled_true (S : Sorter) (m : Manager) (now : Nat) (he : m._enabled = false) :
    setEnabled S m now true =
      (connectToBestNetwork S
        { radio { m with _enabled := true } RadioCmd.modeSTA with
          _state := WiFiState.WIFI_DISCONNECTED } now).2 := by
  simp [setEnabled, he]

theorem setEnabled_same (S : Sorter) (m : Manager) (now : Nat) (b : Bool)
    (h : m._enabled = b) : setEnabled S m now b = m := by
  simp [setEnabled, h]

/-- C15. Re-enable resumes connecting: on a disabled manager `setEnabled(true)`
sets enabled and, within the same call, attempts `connectToBestNetwork` from
state Disconnected. If the saved list is non-empty the resulting state is
Connecting, targeting a highest-ranked saved network (no saved record has a
higher priority, nor an equal priority with a stronger signal), with attempt
counter 1 and the manual-disconnect flag cleared; if the saved list is empty
the resulting state is Disconnected. On a manager whose enabled flag already
equals the argument, `setEnabled` changes nothing. -/
theorem setEnabled_contract (S : Sorter) (m : Manager) (now : Nat) :
    (isEnabled m = false →
        isEnabled (setEnabled S m now true) = true ∧
          (getSavedNetworks m ≠ [] →
            getState (setEnabled S m now true) = WiFiState.WIFI_CONNECTING ∧
              (setEnabled S m now true)._connectionAttempts = 1 ∧
              (setEnabled S m now true)._manualDisconnect = false ∧
              ∃ n ∈ getSavedNetworks m,
                (setEnabled S m now true)._connectingSSID = n.ssid ∧
                  (setEnabled S m now true)._connectingPassword = n.password ∧
                  ∀ r ∈ getSavedNetworks m,
                    ¬ r.priority > n.priority ∧
                      ¬ (r.priority = n.priority ∧ r.rssi > n.rssi)) ∧
          (getSavedNetworks m = [] →
            getState (setEnabled S m now true) = WiFiState.WIFI_DISCONNECTED)) ∧
      ∀ b, isEnabled m = b → setEnabled S m now b = m := by
  unfold isEnabled getSavedNetworks getState
  refine ⟨fun he => ?_, fun b hb => setEnabled_same S m now b hb⟩
  rw [setEnabled_true S m now he]
  refine ⟨?_, fun hne => ?_, fun hnil => ?_⟩
  · by_cases hnil : m._savedNetworks = []
    · simp [connectToBestNetwork, radio, hnil]
    · obtain ⟨n, rest, -, hres⟩ :=
        connectToBestNetwork_enabled S
          { radio { m with _enabled := true } RadioCmd.modeSTA with
            _state := WiFiState.WIFI_DISCONNECTED } now rfl hnil
      rw [hres]
      exact (connectRequested_fields _ now n.ssid n.password).2.2.2.2.2.2.2.2.1
  · obtain ⟨n, rest, hsort, hres⟩ :=
      connectToBestNetwork_enabled S
        { radio { m with _enabled := true } RadioCmd.modeSTA with
          _state := WiFiState.WIFI_DISCONNECTED } now rfl hne
    rw [hres]
    obtain ⟨f1, f2, f3, -, f5, f6, -⟩ := connectRequested_fields
      { { radio { m with _enabled := true } RadioCmd.modeSTA with
          _state := WiFiState.WIFI_DISCONNECTED } with
        _savedNetworks := S.sort m._savedNetworks } now n.ssid n.password
    have hsort2 : S.sort m._savedNetworks = n :: rest := hsort
    have hn : n ∈ m._savedNetworks :=
      (S.perm m._savedNetworks).subset (hsort2 ▸ List.mem_cons_self n rest)
    refine ⟨f1, f5, f6, n, hn, f2, f3, ?_⟩
    intro r hr
    have := sort_head_highest S m._savedNetworks n rest hsort2 r hr
    simp only [rankBefore, Bool.or_eq_false_iff, Bool.and_eq_false_iff,
      decide_eq_false_iff_not] at this
    constructor <;> omega
  · simp [connectToBestNetwork, radio, hnil]

/-- C15 at a disabled manager whose saved list is `[cafe, home]` with
priorities 1 and 2. -/
theorem setEnabled_contract_witness :
    isEnabled
        { new Preferences.empty with
          _savedNetworks := [newRecord "cafe" "" 1, newRecord "home" "h" 2] } = false ∧
      getState
          (setEnabled insertionSorter
            { new Preferences.empty with
              _savedNetworks := [newRecord "cafe" "" 1, newRecord "home" "h" 2] }
            500 true) =
        WiFiState.WIFI_CONNECTING :=
  ⟨rfl,
    (((setEnabled_contract insertionSorter
      { new Preferences.empty with
        _savedNetworks := [newRecord "cafe" "" 1, newRecord "home" "h" 2] }
      500).1 rfl).2.1 (by decide)).1⟩

/-! ## C16: which operations leave the state Disabled -/

theorem disconnect_fields (m : Manager) (manual : Bool) :
    (disconnect m manual)._state = WiFiState.WIFI_DISCONNECTED ∧
      (disconnect m manual)._manualDisconnect = manual ∧
      (disconnect m manual)._enabled = m._enabled ∧
      (disconnect m manual)._lastConnectionAttempt = m._lastConnectionAttempt ∧
      (disconnect m manual).radioLog = m.radioLog ++ [RadioCmd.disconnect] := by
  simp [disconnect, radio]

theorem strict_pairwise_total (t : List NetworkInfo)
    (ht : t.Pairwise (fun x y => rankBefore x y = true)) :
    ∀ x ∈ t, ∀ y ∈ t, x = y ∨ rankBefore x y = true ∨ rankBefore y x = true := by
  induction t with
  | nil => intro x hx; simp at hx
  | cons a t ih =>
    rw [List.pairwise_cons] at ht
    intro x hx y hy
    rcases List.mem_cons.1 hx with hxa | hx <;> rcases List.mem_cons.1 hy with hya | hy
    · exact Or.inl (hxa.trans hya.symm)
    · exact Or.inr (Or.inl (hxa ▸ ht.1 y hy))
    · exact Or.inr (Or.inr (hya ▸ ht.1 x hx))
    · exact ih ht.2 x hx y hy

/-- A list in strictly decreasing rank is the only sorted arrangement of its
records. -/
theorem sort_unique (S : Sorter) (t l : List NetworkInfo)
    (ht : t.Pairwise (fun x y => rankBefore x y = true)) (hl : l.Perm t) : S.sort l = t := by
  have hp : (S.sort l).Perm t := (S.perm l).trans hl
  have htot := strict_pairwise_total t ht
  haveI : IsAntisymm NetworkInfo (fun x y => rankBefore x y = true ∨ x = y) :=
    ⟨fun x y hxy hyx => by
      rcases hxy with hxy | hxy
      · rcases hyx with hyx | hyx
        · rw [rankBefore_asymm hxy] at hyx; exact absurd hyx (by simp)
        · exact hyx.symm
      · exact hxy⟩
  have hs1 : (S.sort l).Sorted (fun x y => rankBefore x y = true ∨ x = y) := by
    have hsorted := S.sorted l
    unfold RankSorted at hsorted
    refine List.Pairwise.imp_of_mem ?_ hsorted
    intro x y hx hy hxy
    rcases htot x (hp.subset hx) y (hp.subset hy) with h | h | h
    · exact Or.inr h
    · exact Or.inl h
    · rw [hxy] at h; exact absurd h (by simp)
  have hs2 : t.Sorted (fun x y => rankBefore x y = true ∨ x = y) :=
    ht.imp (fun h => Or.inl h)
  exact List.eq_of_perm_of_sorted hp hs1 hs2

/-- C17. `sortNetworksByPriority` is a correct ranking sort. Its comparator is
a strict weak ordering, so that `std::sort` applies; for every list of records
the result is a permutation of the input and is non-increasing by
(priority, rssi) lexicographically; and records `a` (priority 5, rssi -40),
`b` (priority 5, rssi -60), `c` (priority 3, rssi -20), given in any order,
sort to `[a, b, c]`. -/
theorem sortNetworksByPriority_correct (S : Sorter) (l : List NetworkInfo) :
    ((∀ a, rankBefore a a = false) ∧
        (∀ a b c, rankBefore a b = true → rankBefore b c = true → rankBefore a c = true) ∧
        ∀ a b c, rankBefore a b = false ∧ rankBefore b a = false →
          rankBefore b c = false ∧ rankBefore c b = false →
          rankBefore a c = false ∧ rankBefore c a = false) ∧
      (sortNetworksByPriority S l).Perm l ∧
      NonIncreasing (sortNetworksByPriority S l) ∧
      ∀ a b c : NetworkInfo, a.priority = 5 ∧ a.rssi = -40 → b.priority = 5 ∧ b.rssi = -60 →
        c.priority = 3 ∧ c.rssi = -20 →
        ∀ given : List NetworkInfo, given.Perm [a, b, c] →
          sortNetworksByPriority S given = [a, b, c] := by
  refine ⟨⟨rankBefore_irrefl, ?_, ?_⟩, S.perm l, nonIncreasing_sort S l, ?_⟩
  · intro a b c h1 h2
    simp only [rankBefore, Bool.or_eq_true, Bool.and_eq_true, decide_eq_true_eq] at h1 h2 ⊢
    omega
  · intro a b c h1 h2
    simp only [rankBefore, Bool.or_eq_false_iff, Bool.and_eq_false_iff,
      decide_eq_false_iff_not] at h1 h2 ⊢
    omega
  · intro a b c ha hb hc given hg
    apply sort_unique S [a, b, c] given _ hg
    simp [rankBefore, ha.1, ha.2, hb.1, hb.2, hc.1, hc.2]

/-- C17 at the records `A`, `B`, `C` of the specification, given as `[C, A, B]`. -/
theorem sortNetworksByPriority_correct_witness :
    ([{ newRecord "C" "" 3 with rssi := -20 }, { newRecord "A" "" 5 with rssi := -40 },
          { newRecord "B" "" 5 with rssi := -60 }] : List NetworkInfo).Perm
        [{ newRecord "A" "" 5 with rssi := -40 }, { newRecord "B" "" 5 with rssi := -60 },
          { newRecord "C" "" 3 with rssi := -20 }] ∧
      sortNetworksByPriority insertionSorter
          [{ newRecord "C" "" 3 with rssi := -20 }, { newRecord "A" "" 5 with rssi := -40 },
            { newRecord "B" "" 5 with rssi := -60 }] =
        [{ newRecord "A" "" 5 with rssi := -40 }, { newRecord "B" "" 5 with rssi := -60 },
          { newRecord "C" "" 3 with rssi := -20 }] :=
  ⟨by decide,
    (sortNetworksByPriority_correct insertionSorter []).2.2.2
      { newRecord "A" "" 5 with rssi := -40 } { newRecord "B" "" 5 with rssi := -60 }
      { newRecord "C" "" 3 with rssi := -20 } ⟨rfl, rfl⟩ ⟨rfl, rfl⟩ ⟨rfl, rfl⟩ _ (by decide)⟩

/-! ## C18: `loadSavedNetworks` -/

theorem loadEntry_eq (p : Preferences) (acc : List NetworkInfo) (i : Nat) :
    loadEntry p acc i = acc ++ (persistedEntry p i).toList := by
  unfold loadEntry persistedEntry
  by_cases hc : (p.getString (ssidKey i) "").length > 0
  · simp [hc, newRecord]
  · simp [hc]

theorem loadLoop_eq (p : Preferences) (acc : List NetworkInfo) (n : Nat) :
    (List.range n).foldl (loadEntry p) acc = acc ++ (List.range n).filterMap (persistedEntry p) := by
  induction n with
  | zero => simp
  | succ n ih =>
    rw [List.range_succ, List.foldl_append, ih, List.filterMap_append]
    simp only [List.foldl_cons, List.foldl_nil, loadEntry_eq, List.append_assoc]
    cases h : persistedEntry p n <;> simp [h]

/-- What `loadSavedNetworks` does: the records read from persistence are pushed
behind the records already in memory, and the whole vector is sorted. -/
theorem loadSavedNetworks_saved (S : Sorter) (m : Manager) :
    (loadSavedNetworks S m)._savedNetworks =
      S.sort (m._savedNetworks ++ persistedEntries m._preferences) := by
  unfold loadSavedNetworks persistedEntries
  simp only [loadLoop_eq]

/-- On an empty saved list `loadSavedNetworks` yields exactly the persisted
entries, sorted, at most `MAX_SAVED_NETWORKS` of them. -/
theorem loadSavedNetworks_from_empty (S : Sorter) (m : Manager) (h : m._savedNetworks = []) :
    (loadSavedNetworks S m)._savedNetworks.Perm (persistedEntries m._preferences) ∧
      NonIncreasing (loadSavedNetworks S m)._savedNetworks ∧
      (loadSavedNetworks S m)._savedNetworks.length ≤ MAX_SAVED_NETWORKS := by
  rw [loadSavedNetworks_saved, h, List.nil_append]
  refine ⟨S.perm _, nonIncreasing_sort S _, ?_⟩
  rw [(S.perm _).length_eq]
  unfold persistedEntries
  refine (List.length_filterMap_le _ _).trans ?_
  rw [List.length_range]
  unfold MAX_SAVED_NETWORKS
  omega

/-- C18, at the failing input. The persistence service holds the three networks
`home`, `office`, `cafe`. After `begin()` on a fresh manager the saved list holds
these three records. A further `loadSavedNetworks()` does not start from an
empty vector: it pushes the three persisted records behind the three already in
memory, so the saved list holds 6 records (more than `MAX_SAVED_NETWORKS`),
each ssid twice, where C18 asks for exactly one record per persisted index. -/
theorem loadSavedNetworks_keeps_previous :
    (persistedEntries threeNetworksPrefs).map NetworkInfo.ssid = ["home", "office", "cafe"] ∧
      (getSavedNetworks (begin insertionSorter (new threeNetworksPrefs))).map NetworkInfo.ssid =
        ["home", "office", "cafe"] ∧
      (getSavedNetworks
          (loadSavedNetworks insertionSorter
            (begin insertionSorter (new threeNetworksPrefs)))).map NetworkInfo.ssid =
        ["home", "home", "office", "office", "cafe", "cafe"] ∧
      ¬ (getSavedNetworks
          (loadSavedNetworks insertionSorter
            (begin insertionSorter (new threeNetworksPrefs)))).length ≤ MAX_SAVED_NETWORKS := by
  refine ⟨by decide, by decide, by decide, by decide⟩

/-! ## C19: completion of a scan -/

theorem scanLoop_eq (f : Nat → NetworkInfo) (n : Nat) :
    (List.range n).foldl (fun acc i => acc ++ [f i]) [] = (List.range n).map f := by
  induction n with
  | zero => rfl
  | succ n ih => rw [List.range_succ, List.foldl_append, ih, List.map_append]; rfl

theorem update_scanning (S : Sorter) (m : Manager) (env : Env) (he : m._enabled = true)
    (hs : m._state = WiFiState.WIFI_SCANNING) : update S m env = updateScanning S m env := by
  simp [update, updateState, he, hs]

/-- The manager after an update that finds the scan complete with `n` results. -/
theorem updateScanning_complete (S : Sorter) (m : Manager) (env : Env) (n : Nat)
    (hn : env.scanComplete = (n : Int)) :
    (updateScanning S m env)._scanResults =
        S.sort ((List.range n).map (scanRecord m._savedNetworks env)) ∧
      (updateScanning S m env)._scanInProgress = false ∧
      (updateScanning S m env)._state = stateAfterScan env ∧
      (updateScanning S m env).scanLog =
        (if m._scanCallback then
          m.scanLog ++ [S.sort ((List.range n).map (scanRecord m._savedNetworks env))]
        else m.scanLog) ∧
      (updateScanning S m env).radioLog = m.radioLog := by
  unfold updateScanning
  simp only [hn, Int.ofNat_nonneg, ge_iff_le, if_true, Int.toNat_ofNat, scanLoop_eq,
    notifyStatus_scanCallback]
  by_cases hcb : m._scanCallback = true
  · simp [hcb]
  · simp [hcb]

theorem getElem?_at_length {α : Type} (pre : List α) (a : α) (post : List α) :
    (pre ++ a :: post)[pre.length]? = some a := by
  induction pre with
  | nil => simp
  | cons b pre ih => simpa using ih

/-- The fields of the record built for scan entry `i`. -/
theorem scanRecord_fields (saved : List NetworkInfo) (env : Env) (i : Nat) :
    (scanRecord saved env i).ssid = env.scanSSID i ∧
      (scanRecord saved env i).rssi = toInt8 (env.scanRSSI i) ∧
      (scanRecord saved env i).encryptionType = toUInt8 (env.scanEncryptionType i) ∧
      ((scanRecord saved env i).saved = true ↔
        ∃ s ∈ saved, s.ssid = (scanRecord saved env i).ssid) ∧
      ((scanRecord saved env i).saved = true →
        ∃ pre s post, saved = pre ++ s :: post ∧ s.ssid = (scanRecord saved env i).ssid ∧
          (∀ x ∈ pre, x.ssid ≠ (scanRecord saved env i).ssid) ∧
          (scanRecord saved env i).priority = s.priority) ∧
      ((scanRecord saved env i).saved = false → (scanRecord saved env i).priority = 0) ∧
      ((scanRecord saved env i).connected = true ↔
        env.connected = true ∧ env.currentSSID = (scanRecord saved env i).ssid) := by
  refine ⟨rfl, rfl, rfl, ?_, ?_, ?_, ?_⟩
  · cases hf : findNetwork (env.scanSSID i) saved with
    | none =>
      have hnot := findNetwork_none.1 hf
      simp only [scanRecord, hf, Option.isSome_none, Bool.false_eq_true, false_iff]
      rintro ⟨s, hs, hss⟩
      exact hnot (List.mem_map.2 ⟨s, hs, hss⟩)
    | some idx =>
      obtain ⟨pre, s, post, hl, -, hsid, -⟩ := findNetwork_some hf
      simp only [scanRecord, hf, Option.isSome_some, true_iff]
      exact ⟨s, by rw [hl]; simp, hsid⟩
  · cases hf : findNetwork (env.scanSSID i) saved with
    | none => simp [scanRecord, hf]
    | some idx =>
      obtain ⟨pre, s, post, hl, hidx, hsid, hpre⟩ := findNetwork_some hf
      intro _
      refine ⟨pre, s, post, hl, hsid, hpre, ?_⟩
      have hget : saved[idx]? = some s := by rw [hl, hidx]; exact getElem?_at_length pre s post
      simp [scanRecord, hf, hget]
  · cases hf : findNetwork (env.scanSSID i) saved with
    | none => simp [scanRecord, hf]
    | some idx => simp [scanRecord, hf]
  · simp [scanRecord]

theorem toInt8_of_range {x : Int} (h : -128 ≤ x ∧ x ≤ 127) : toInt8 x = x := by
  unfold toInt8
  omega

theorem toUInt8_of_range {x : Nat} (h : x < 256) : toUInt8 x = x := by
  unfold toUInt8
  omega

/-- C19. Scan completion merge: on an enabled manager in state Scanning, when
the radio reports `n ≥ 0` results, `update()` replaces the scan results by a list
of exactly `n` records, a permutation of the records built from the driver's
entries: (ssid, signal, encryption kind) per index, the signal and the
encryption kind as stored in the `int8_t` and `uint8_t` fields, which is the
driver's value whenever that value is in the range of the field. Every record
has saved = true iff a saved record has the same ssid, the priority of the
first saved record of that ssid if saved and 0 otherwise, and connected = true
iff the radio is associated and its current ssid is the record's ssid. The list
is sorted by priority descending, then signal descending; the in-progress flag
is cleared; the state becomes Connected if the radio is associated
(`WiFi.status() == WL_CONNECTED`, the reading `env.connected`) and Disconnected
otherwise; no radio request is issued; and the scan callback, if
set, is invoked exactly once, with this list. -/
theorem scan_completion (S : Sorter) (m : Manager) (env : Env) (n : Nat)
    (he : isEnabled m = true) (hs : getState m = WiFiState.WIFI_SCANNING)
    (hn : env.scanComplete = (n : Int)) :
    (getScanResults (update S m env)).length = n ∧
      ((getScanResults (update S m env)).map (fun r => (r.ssid, r.rssi, r.encryptionType))).Perm
        ((List.range n).map
          (fun i => (env.scanSSID i, toInt8 (env.scanRSSI i),
            toUInt8 (env.scanEncryptionType i)))) ∧
      ((∀ i < n, (-128 ≤ env.scanRSSI i ∧ env.scanRSSI i ≤ 127) ∧
          env.scanEncryptionType i < 256) →
        ((getScanResults (update S m env)).map
            (fun r => (r.ssid, r.rssi, r.encryptionType))).Perm
          ((List.range n).map
            (fun i => (env.scanSSID i, env.scanRSSI i, env.scanEncryptionType i)))) ∧
      (∀ r ∈ getScanResults (update S m env),
        (r.saved = true ↔ ∃ s ∈ getSavedNetworks m, s.ssid = r.ssid) ∧
          (r.saved = true →
            ∃ pre s post, getSavedNetworks m = pre ++ s :: post ∧ s.ssid = r.ssid ∧
              (∀ x ∈ pre, x.ssid ≠ r.ssid) ∧ r.priority = s.priority) ∧
          (r.saved = false → r.priority = 0) ∧
          (r.connected = true ↔ env.connected = true ∧ env.currentSSID = r.ssid)) ∧
      NonIncreasing (getScanResults (update S m env)) ∧
      isScanning (update S m env) = false ∧
      getState (update S m env) =
        (if env.connected = true then WiFiState.WIFI_CONNECTED
          else WiFiState.WIFI_DISCONNECTED) ∧
      (env.connected = true → (update S m env)._state = WiFiState.WIFI_CONNECTED) ∧
      (env.connected = false → (update S m env)._state = WiFiState.WIFI_DISCONNECTED) ∧
      (update S m env)._scanInProgress = false ∧
      (update S m env).radioLog = m.radioLog ∧
      (m._scanCallback = true →
        (update S m env).scanLog = m.scanLog ++ [getScanResults (update S m env)]) ∧
      (m._scanCallback = false → (update S m env).scanLog = m.scanLog) := by
  unfold isEnabled at he
  unfold getState at hs
  unfold getScanResults getSavedNetworks isScanning getState
  rw [update_scanning S m env he hs]
  obtain ⟨f1, f2, f3, f4, f5⟩ := updateScanning_complete S m env n hn
  rw [f1, f2, f3, f4, f5]
  have hperm := S.perm ((List.range n).map (scanRecord m._savedNetworks env))
  have htrip : ((S.sort ((List.range n).map (scanRecord m._savedNetworks env))).map
      (fun r => (r.ssid, r.rssi, r.encryptionType))).Perm
      ((List.range n).map
        (fun i => (env.scanSSID i, toInt8 (env.scanRSSI i),
          toUInt8 (env.scanEncryptionType i)))) := by
    have h1 := hperm.map (fun r => (r.ssid, r.rssi, r.encryptionType))
    rw [List.map_map] at h1
    exact h1
  refine ⟨?_, htrip, ?_, ?_, nonIncreasing_sort S _, rfl, rfl,
    fun hc => by simp [stateAfterScan, isConnected, hc],
    fun hc => by simp [stateAfterScan, isConnected, hc], rfl, rfl, ?_, ?_⟩
  · rw [hperm.length_eq]; simp
  · intro hr
    have heq : (List.range n).map
        (fun i => (env.scanSSID i, toInt8 (env.scanRSSI i),
          toUInt8 (env.scanEncryptionType i))) =
        (List.range n).map
          (fun i => (env.scanSSID i, env.scanRSSI i, env.scanEncryptionType i)) := by
      apply List.map_congr_left
      intro i hi
      have := hr i (List.mem_range.1 hi)
      rw [toInt8_of_range this.1, toUInt8_of_range this.2]
    rw [← heq]
    exact htrip
  · intro r hr
    obtain ⟨i, -, rfl⟩ := List.mem_map.1 (hperm.subset hr)
    exact (scanRecord_fields m._savedNetworks env i).2.2.2
  · intro hcb; simp [hcb]
  · intro hcb; simp [hcb]

/-- C19 at a manager that saved `home` with priority 2 and started a scan, when
the scan completes with the entries `cafe` and `home`. -/
theorem scan_completion_witness :
    (isEnabled
          (startScan
            { new Preferences.empty with
              _enabled := true, _scanCallback := true,
              _savedNetworks := [newRecord "home" "h" 2] } 100).2 = true ∧
        getState
          (startScan
            { new Preferences.empty with
              _enabled := true, _scanCallback := true,
              _savedNetworks := [newRecord "home" "h" 2] } 100).2 = WiFiState.WIFI_SCANNING ∧
        (twoResultsEnv 900).scanComplete = ((2 : Nat) : Int)) ∧
      (getScanResults
          (update insertionSorter
            (startScan
              { new Preferences.empty with
                _enabled := true, _scanCallback := true,
                _savedNetworks := [newRecord "home" "h" 2] } 100).2
            (twoResultsEnv 900))).length = 2 :=
  ⟨⟨by decide, by decide, by decide⟩,
    (scan_completion insertionSorter
      (startScan
        { new Preferences.empty with
          _enabled := true, _scanCallback := true,
          _savedNetworks := [newRecord "home" "h" 2] } 100).2
      (twoResultsEnv 900) 2 (by decide) (by decide) (by decide)).1⟩

/-! ## C20: automatic reconnection in state Disconnected -/

theorem update_disconnected (S : Sorter) (m : Manager) (env : Env) (he : m._enabled = true)
    (hs : m._state = WiFiState.WIFI_DISCONNECTED) :
    update S m env = updateDisconnected S m env := by
  simp [update, updateState, he, hs]

/-- After a manual disconnect an update changes nothing. -/
theorem update_manual_disconnected (S : Sorter) (m : Manager) (env : Env)
    (hs : m._state = WiFiState.WIFI_DISCONNECTED) (hm : m._manualDisconnect = true) :
    update S m env = m := by
  cases he : m._enabled with
  | false => exact update_disabled S m env he
  | true =>
    rw [update_disconnected S m env he hs]
    simp [updateDisconnected, hm]

theorem updates_manual_disconnected (S : Sorter) (m : Manager)
    (hs : m._state = WiFiState.WIFI_DISCONNECTED) (hm : m._manualDisconnect = true)
    (envs : List Env) : updates S m envs = m := by
  induction envs with
  | nil => rfl
  | cons e rest ih =>
    unfold updates
    rw [update_manual_disconnected S m e hs hm]
    exact ih

/-- C20. Auto-reconnect rule in Disconnected: on an enabled manager in state
Disconnected, `update()` invokes `connectToBestNetwork` if and only if the
manual-disconnect flag is false and the time since the last connection attempt
exceeds `RECONNECT_INTERVAL` (30000 ms), and otherwise changes nothing. In
particular, after `disconnect(true)` the state is Disconnected with the manual
flag set, and no number of `update()` calls, at any clock values and radio
statuses, changes the state or issues a radio request: the manager stays as
`disconnect(true)` left it. -/
theorem auto_reconnect_rule (S : Sorter) (m : Manager) (env : Env) (envs : List Env) :
    (isEnabled m = true → getState m = WiFiState.WIFI_DISCONNECTED →
        ((m._manualDisconnect = false ∧
            elapsed env.millis m._lastConnectionAttempt > RECONNECT_INTERVAL) →
          update S m env = (connectToBestNetwork S m env.millis).2) ∧
        (¬ (m._manualDisconnect = false ∧
            elapsed env.millis m._lastConnectionAttempt > RECONNECT_INTERVAL) →
          update S m env = m)) ∧
      getState (disconnect m true) = WiFiState.WIFI_DISCONNECTED ∧
      (disconnect m true)._manualDisconnect = true ∧
      updates S (disconnect m true) envs = disconnect m true ∧
      getState (updates S (disconnect m true) envs) = WiFiState.WIFI_DISCONNECTED ∧
      (updates S (disconnect m true) envs).radioLog = (disconnect m true).radioLog := by
  unfold isEnabled getState
  obtain ⟨d1, d2, -, -, -⟩ := disconnect_fields m true
  have hu := updates_manual_disconnected S (disconnect m true) d1 d2 envs
  refine ⟨fun he hs => ?_, d1, d2, hu, by rw [hu]; exact d1, by rw [hu]⟩
  rw [update_disconnected S m env he hs]
  unfold updateDisconnected
  constructor
  · rintro ⟨hm, ht⟩
    simp [hm, ht]
  · intro hnot
    rw [if_neg]
    intro hc
    simp only [Bool.and_eq_true, Bool.not_eq_true', decide_eq_true_eq] at hc
    exact hnot hc

/-- C20 at an enabled manager in state Disconnected with one saved network,
last attempt at 0 ms, updated at 30001 ms: it reconnects. -/
theorem auto_reconnect_rule_witness :
    (isEnabled
          { new Preferences.empty with
            _enabled := true, _state := WiFiState.WIFI_DISCONNECTED,
            _savedNetworks := [newRecord "home" "h" 2] } = true ∧
        (false = false ∧ elapsed (idleEnv 30001).millis 0 > RECONNECT_INTERVAL)) ∧
      update insertionSorter
          { new Preferences.empty with
            _enabled := true, _state := WiFiState.WIFI_DISCONNECTED,
            _savedNetworks := [newRecord "home" "h" 2] }
          (idleEnv 30001) =
        (connectToBestNetwork insertionSorter
          { new Preferences.empty with
            _enabled := true, _state := WiFiState.WIFI_DISCONNECTED,
            _savedNetworks := [newRecord "home" "h" 2] }
          (idleEnv 30001).millis).2 :=
  ⟨⟨rfl, by decide⟩,
    ((auto_reconnect_rule insertionSorter
      { new Preferences.empty with
        _enabled := true, _state := WiFiState.WIFI_DISCONNECTED,
        _savedNetworks := [newRecord "home" "h" 2] }
      (idleEnv 30001) []).1 rfl rfl).1 ⟨rfl, by decide⟩⟩

/-! ## C21: the scan in-progress flag and the state Scanning -/

theorem scanQuiet_refl (m : Manager) : ScanQuiet m m := ⟨rfl, id⟩

theorem scanQuiet_trans {a b c : Manager} (h1 : ScanQuiet a b) (h2 : ScanQuiet b c) :
    ScanQuiet a c := ⟨h2.1.trans h1.1, fun h => h1.2 (h2.2 h)⟩

theorem scanQuiet_of_state {m m2 : Manager} (hf : m2._scanInProgress = m._scanInProgress)
    (hs : m2._state ≠ WiFiState.WIFI_SCANNING) : ScanQuiet m m2 :=
  ⟨hf, fun h => absurd h hs⟩

theorem scanQuiet_notifyStatus (m : Manager) (msg : String) : ScanQuiet m (notifyStatus m msg) :=
  ⟨by simp, by simp⟩

theorem scanQuiet_connectRequested (m : Manager) (now : Nat) (ssid password : String) :
    ScanQuiet m (connectRequested m now ssid password) := by
  apply scanQuiet_of_state
  · simp [connectRequested, radio]
  · rw [(connectRequested_fields m now ssid password).1]; decide

theorem scanQuiet_addNetwork (S : Sorter) (m : Manager) (ssid password : String)
    (priority : Int) : ScanQuiet m (addNetwork S m ssid password priority).2 := by
  rw [(addNetwork_frame S m ssid password priority).2]
  exact ⟨rfl, id⟩

theorem scanQuiet_removeNetwork (m : Manager) (ssid : String) :
    ScanQuiet m (removeNetwork m ssid).2 := by
  unfold removeNetwork
  split <;> exact ⟨rfl, id⟩

theorem scanQuiet_setNetworkPriority (m : Manager) (ssid : String) (priority : Int) :
    ScanQuiet m (setNetworkPriority m ssid priority).2 := by
  unfold setNetworkPriority
  split <;> exact ⟨rfl, id⟩

theorem scanQuiet_connect (S : Sorter) (m : Manager) (now : Nat) (ssid password : String)
    (save : Bool) (priority : Int) :
    ScanQuiet m (connect S m now ssid password save priority).2 := by
  cases he : m._enabled with
  | false =>
    have : connect S m now ssid password save priority = (false, m) := by simp [connect, he]
    rw [this]
    exact scanQuiet_refl m
  | true =>
    rw [connect_enabled S m now ssid password save priority he]
    cases save with
    | false => exact scanQuiet_connectRequested m now ssid password
    | true =>
      exact scanQuiet_trans (scanQuiet_connectRequested m now ssid password)
        (scanQuiet_addNetwork S _ ssid password priority)

theorem scanQuiet_connectToBestNetwork (S : Sorter) (m : Manager) (now : Nat) :
    ScanQuiet m (connectToBestNetwork S m now).2 := by
  by_cases h : m._enabled = true ∧ m._savedNetworks ≠ []
  · obtain ⟨n, rest, -, hres⟩ := connectToBestNetwork_enabled S m now h.1 h.2
    rw [hres]
    exact scanQuiet_trans (b := { m with _savedNetworks := S.sort m._savedNetworks }) ⟨rfl, id⟩
      (scanQuiet_connectRequested _ now n.ssid n.password)
  · have : connectToBestNetwork S m now = (false, m) := by
      unfold connectToBestNetwork
      rw [if_pos]
      cases he : m._enabled with
      | false => simp
      | true =>
        have hnil : m._savedNetworks = [] := by
          by_contra hne
          exact h ⟨he, hne⟩
        simp [hnil]
    rw [this]
    exact scanQuiet_refl m

theorem scanQuiet_disconnect (m : Manager) (manual : Bool) :
    ScanQuiet m (disconnect m manual) := by
  apply scanQuiet_of_state
  · simp [disconnect, radio]
  · rw [(disconnect_fields m manual).1]; decide

theorem scanQuiet_begin (S : Sorter) (m : Manager) : ScanQuiet m (begin S m) := by
  apply scanQuiet_of_state
  · simp [begin, radio, loadSavedNetworks]
  · simp [begin, radio, loadSavedNetworks]

theorem scanQuiet_setEnabled (S : Sorter) (m : Manager) (now : Nat) (enabled : Bool) :
    ScanQuiet m (setEnabled S m now enabled) := by
  by_cases hsame : m._enabled = enabled
  · rw [setEnabled_same S m now enabled hsame]
    exact scanQuiet_refl m
  · cases enabled with
    | true =>
      have he : m._enabled = false := by simpa using hsame
      rw [setEnabled_true S m now he]
      exact scanQuiet_trans
        (b := { radio { m with _enabled := true } RadioCmd.modeSTA with
          _state := WiFiState.WIFI_DISCONNECTED })
        (scanQuiet_of_state rfl (by simp)) (scanQuiet_connectToBestNetwork S _ now)
    | false =>
      have he : m._enabled = true := by simpa using hsame
      rw [setEnabled_false S m now he]
      apply scanQuiet_of_state
      · simp [radio, disconnect]
      · simp

theorem stateAfterScan_ne (env : Env) : stateAfterScan env ≠ WiFiState.WIFI_SCANNING := by
  unfold stateAfterScan
  split <;> decide

theorem scanQuiet_updateConnecting (m : Manager) (env : Env) :
    ScanQuiet m (updateConnecting m env) := by
  unfold updateConnecting
  split
  · exact scanQuiet_of_state (by simp) (by simp)
  · split
    · split
      · exact ⟨by simp [radio], by simp [radio]⟩
      · exact scanQuiet_of_state (by simp) (by simp)
    · exact scanQuiet_refl m

theorem scanQuiet_updateConnected (S : Sorter) (m : Manager) (env : Env) :
    ScanQuiet m (updateConnected S m env) := by
  unfold updateConnected
  split
  · have h1 : ScanQuiet m { m with _state := WiFiState.WIFI_DISCONNECTED } :=
      scanQuiet_of_state rfl (by simp)
    dsimp only
    split
    · exact scanQuiet_trans h1 (scanQuiet_connectToBestNetwork S _ env.millis)
    · exact h1
  · exact scanQuiet_refl m

theorem scanQuiet_updateDisconnected (S : Sorter) (m : Manager) (env : Env) :
    ScanQuiet m (updateDisconnected S m env) := by
  unfold updateDisconnected
  split
  · exact scanQuiet_connectToBestNetwork S m env.millis
  · exact scanQuiet_refl m

/-- Outside the state Scanning, `update` leaves the scan accounting alone. -/
theorem scanQuiet_update (S : Sorter) (m : Manager) (env : Env)
    (hs : m._state ≠ WiFiState.WIFI_SCANNING) : ScanQuiet m (update S m env) := by
  unfold update
  split
  · exact scanQuiet_refl m
  · unfold updateState
    split
    · rename_i h; exact absurd h hs
    · exact scanQuiet_updateConnecting m env
    · exact scanQuiet_updateConnected S m env
    · exact scanQuiet_updateDisconnected S m env
    · exact scanQuiet_refl m

/-- The scanning case of `updateState` changes nothing or ends the scan. -/
theorem updateScanning_cases (S : Sorter) (m : Manager) (env : Env) :
    updateScanning S m env = m ∨
      ((updateScanning S m env)._scanInProgress = false ∧
        (updateScanning S m env)._state ≠ WiFiState.WIFI_SCANNING) := by
  by_cases hc : env.scanComplete ≥ 0
  · right
    unfold updateScanning
    rw [if_pos hc]
    dsimp only
    by_cases hcb : m._scanCallback = true
    · simp [hcb, stateAfterScan_ne]
    · simp [hcb, stateAfterScan_ne]
  · by_cases ht : elapsed env.millis m._scanStartTime > SCAN_TIMEOUT
    · right
      unfold updateScanning
      rw [if_neg hc, if_pos ht]
      simp [radio, stateAfterScan_ne]
    · left
      unfold updateScanning
      rw [if_neg hc, if_neg ht]

/-- In the state Scanning, `update` changes nothing or ends the scan: it clears
the flag and leaves the state Scanning. -/
theorem update_in_scanning (S : Sorter) (m : Manager) (env : Env)
    (hs : m._state = WiFiState.WIFI_SCANNING) :
    update S m env = m ∨
      ((update S m env)._scanInProgress = false ∧
        (update S m env)._state ≠ WiFiState.WIFI_SCANNING) := by
  cases he : m._enabled with
  | false => exact Or.inl (update_disabled S m env he)
  | true =>
    rw [update_scanning S m env he hs]
    exact updateScanning_cases S m env

/-- `startScan` either is rejected and changes nothing, or sets the state
Scanning together with the flag. -/
theorem startScan_cases (m : Manager) (now : Nat) :
    ((startScan m now).1 = false ∧ (startScan m now).2 = m) ∨
      ((startScan m now).1 = true ∧ (startScan m now).2._state = WiFiState.WIFI_SCANNING ∧
        (startScan m now).2._scanInProgress = true) := by
  unfold startScan
  split
  · exact Or.inl ⟨rfl, rfl⟩
  · exact Or.inr ⟨rfl, by simp [radio], by simp [radio]⟩

/-- With the flag set, `startScan` is rejected. -/
theorem startScan_flag_set (m : Manager) (now : Nat) (h : m._scanInProgress = true) :
    startScan m now = (false, m) := by
  simp [startScan, h]

/-- Every operation other than `startScan`, and `update` outside the state
Scanning, leaves the scan accounting alone. -/
theorem scanQuiet_apply (S : Sorter) (m : Manager) (op : Op)
    (hscan : ∀ now, op ≠ Op.startScan now)
    (hupd : ∀ env, op = Op.update env → m._state ≠ WiFiState.WIFI_SCANNING) :
    ScanQuiet m (op.apply S m) := by
  cases op with
  | begin => exact scanQuiet_begin S m
  | setEnabled now enabled => exact scanQuiet_setEnabled S m now enabled
  | connect now ssid password save priority =>
    exact scanQuiet_connect S m now ssid password save priority
  | connectToBestNetwork now => exact scanQuiet_connectToBestNetwork S m now
  | disconnect manual => exact scanQuiet_disconnect m manual
  | startScan now => exact absurd rfl (hscan now)
  | update env => exact scanQuiet_update S m env (hupd env rfl)
  | addNetwork ssid password priority => exact scanQuiet_addNetwork S m ssid password priority
  | removeNetwork ssid => exact scanQuiet_removeNetwork m ssid
  | setNetworkPriority ssid priority => exact scanQuiet_setNetworkPriority m ssid priority

/-- The state Scanning implies the flag: preserved by every operation. -/
theorem scanning_flag_step (S : Sorter) (m : Manager) (op : Op)
    (h : m._state = WiFiState.WIFI_SCANNING → m._scanInProgress = true) :
    (op.apply S m)._state = WiFiState.WIFI_SCANNING → (op.apply S m)._scanInProgress = true := by
  by_cases hscan : ∃ now, op = Op.startScan now
  · obtain ⟨now, rfl⟩ := hscan
    show (startScan m now).2._state = _ → (startScan m now).2._scanInProgress = true
    rcases startScan_cases m now with hc | hc
    · rw [hc.2]; exact h
    · exact fun _ => hc.2.2
  · by_cases hupd : ∃ env, op = Op.update env ∧ m._state = WiFiState.WIFI_SCANNING
    · obtain ⟨env, rfl, hs⟩ := hupd
      show (update S m env)._state = _ → (update S m env)._scanInProgress = true
      rcases update_in_scanning S m env hs with hc | hc
      · rw [hc]; exact h
      · exact fun hst => absurd hst hc.2
    · have hq := scanQuiet_apply S m op (fun now e => hscan ⟨now, e⟩)
        (fun env e hs => hupd ⟨env, e, hs⟩)
      intro hst
      rw [hq.1]
      exact h (hq.2 hst)

/-- Once the flag is set outside the state Scanning, every operation leaves it so. -/
theorem scanStuck_step (S : Sorter) (m : Manager) (op : Op) (h : ScanStuck m) :
    ScanStuck (op.apply S m) := by
  by_cases hscan : ∃ now, op = Op.startScan now
  · obtain ⟨now, rfl⟩ := hscan
    show ScanStuck (startScan m now).2
    rw [startScan_flag_set m now h.1]
    exact h
  · have hq := scanQuiet_apply S m op (fun now e => hscan ⟨now, e⟩) (fun _ _ => h.2)
    exact ⟨hq.1.trans h.1, fun hst => h.2 (hq.2 hst)⟩

/-- On every state reachable from a freshly constructed manager, the state
Scanning implies that the in-progress flag is set. -/
theorem scanning_implies_flag (S : Sorter) (ops : List Op) :
    ∀ m : Manager, (m._state = WiFiState.WIFI_SCANNING → m._scanInProgress = true) →
      (run S m ops)._state = WiFiState.WIFI_SCANNING → (run S m ops)._scanInProgress = true := by
  induction ops with
  | nil => intro m h; exact h
  | cons op rest ih => intro m h; exact ih _ (scanning_flag_step S m op h)

/-- Once the flag is set outside the state Scanning, no sequence of public
operations clears it or brings the state Scanning back, and `startScan` is
rejected ever after. -/
theorem scanStuck_run (S : Sorter) (ops : List Op) :
    ∀ m : Manager, ScanStuck m →
      ScanStuck (run S m ops) ∧ ∀ now, (startScan (run S m ops) now).1 = false := by
  induction ops with
  | nil =>
    intro m h
    exact ⟨h, fun now => by show (startScan m now).1 = false; rw [startScan_flag_set m now h.1]⟩
  | cons op rest ih => intro m h; exact ih _ (scanStuck_step S m op h)

/-- The half of the agreement that holds: in every state reachable from a
freshly constructed manager, `getState()` is Scanning only if `isScanning()`. -/
theorem scanning_implies_flag_fresh (S : Sorter) (prefs : Preferences) (ops : List Op) :
    getState (run S (new prefs) ops) = WiFiState.WIFI_SCANNING →
      isScanning (run S (new prefs) ops) = true :=
  scanning_implies_flag S ops (new prefs) (fun h => by cases h)

/-- C21, at the failing input. A freshly constructed manager is started with
`begin()`, starts a scan and, before the scan has completed, receives
`connect("home", "secret", false, 0)`: the state is Connecting while
`isScanning()` is still true, and the enabled manager refuses `startScan()`.
No later sequence of public operations, under any radio and clock behaviour,
makes it accept `startScan()` again. The same happens when `disconnect(true)`
takes the place of `connect`: the state is Disconnected and `isScanning()` is
true. -/
theorem scan_flag_stuck :
    getState (run insertionSorter (new Preferences.empty) scanThenConnect) =
        WiFiState.WIFI_CONNECTING ∧
      isScanning (run insertionSorter (new Preferences.empty) scanThenConnect) = true ∧
      isEnabled (run insertionSorter (new Preferences.empty) scanThenConnect) = true ∧
      (startScan (run insertionSorter (new Preferences.empty) scanThenConnect) 300).1 = false ∧
      (∀ (S : Sorter) (ops : List Op) (now : Nat),
        (startScan (run S (run insertionSorter (new Preferences.empty) scanThenConnect) ops)
          now).1 = false) ∧
      getState (run insertionSorter (new Preferences.empty) scanThenDisconnect) =
        WiFiState.WIFI_DISCONNECTED ∧
      isScanning (run insertionSorter (new Preferences.empty) scanThenDisconnect) = true ∧
      isEnabled (run insertionSorter (new Preferences.empty) scanThenDisconnect) = true ∧
      (startScan (run insertionSorter (new Preferences.empty) scanThenDisconnect) 300).1 =
        false := by
  refine ⟨by decide, by decide, by decide, by decide, ?_, by decide, by decide, by decide,
    by decide⟩
  intro S ops now
  exact (scanStuck_run S ops _ ⟨by decide, by decide⟩).2 now

end WiFiManager
